import Mathlib

/-!
Formal verification of the change-detection core of the `nz-facilities`
repository (`facilities_change_detection`).

The Python modules are shallowly embedded:
  * `facilities.py`   — `ChangeAction`, `Comparison`, `Facility`,
    `ExternalSource`, `Facility.update_from_other`,
    `Facility._generate_update_sql`, `compare_facilities`;
  * `schools.py`      — `FacilitiesSchool`, `MOESchool`,
    `FacilitiesSchool.update_from_comparison`,
    `FacilitiesSchool.generate_update_sql`, `compare_schools`;
  * `hospitals.py`    — `compare_facilities_to_hpi`;
  * `polygonise.py`   — `find_matching_titles` and its absorption loop;
  * `cli/parsers.py`  — `parse_comparison_arg`.

Modelling conventions, used consistently below:
  * Python `None` becomes `Option.none`; in-place mutation of a record
    becomes a function returning the updated record; a raised exception
    becomes an `Except.error` (for `Facility.update_from_other`, whose
    partially-mutated state matters, the function returns the state
    reached at the time of the raise together with an optional error).
  * Geometries live in one already-reprojected planar CRS and the code
    only ever consumes them through `shapely`'s `distance`,
    `intersects` and `union_all`.  Points are modelled as rational
    (resp. integer) coordinates on a line and polygons as finite
    nonempty sets of such coordinates; on that carrier `distance` is
    exactly `|a - b|` (minimised over the sets), `intersects` is
    membership and union is set union.  Float arithmetic is modelled as
    exact rational arithmetic.
  * Python `dict`s become association lists in insertion order with
    unique keys; Python `set` iteration order becomes list order.
-/

namespace NZF

/-- Mirrors `ChangeAction` (facilities.py:14-21), a `StrEnum` whose raw
values are the snake-case strings used in the output layers. -/
inductive ChangeAction where
  | ignore
  | add
  | remove
  | updateGeom
  | updateAttr
  | updateGeomAttr
  | cannotCompare
  deriving DecidableEq, Repr

/-- Raw string value of a `ChangeAction` member (the `StrEnum` value,
facilities.py:14-21), which is what Python `str()` interpolates. -/
def ChangeAction.value : ChangeAction → String
  | .ignore => "ignore"
  | .add => "add"
  | .remove => "remove"
  | .updateGeom => "update_geom"
  | .updateAttr => "update_attr"
  | .updateGeomAttr => "update_geom_attr"
  | .cannotCompare => "cannot_compare"

/-- A Python attribute value as stored on the record dataclasses.
Cross-constructor values compare unequal, matching Python `==` across
distinct builtin types.  Geometries carry the rational coordinate of the
modelled point set (see the module docstring). -/
inductive PyVal where
  | vInt (n : ℤ)
  | vStr (s : String)
  | vNone
  | vGeom (g : ℚ)
  | vAction (a : ChangeAction)
  | vDate (d : ℤ)
  deriving DecidableEq, Repr

/-- Python `str()` of a `PyVal`, as interpolated by f-strings.  Only the
`vInt` / `vStr` / `vNone` renderings are exercised by the pipeline; the
remaining constructors get definite placeholder renderings. -/
def PyVal.pyStr : PyVal → String
  | .vInt n => toString n
  | .vStr s => s
  | .vNone => "None"
  | .vGeom g => "GEOM " ++ toString g
  | .vAction a => a.value
  | .vDate d => "DATE " ++ toString d

/-- Python `str()` of an `int | None` value, as interpolated by the SQL
f-strings (`facility_id={self.facilities_id}`). -/
def pyStrOptInt : Option ℤ → String
  | none => "None"
  | some n => toString n

/-- Python `str()` of a `str | None` value (an f-string renders `None`
as the four characters `None`). -/
def pyStrOptStr : Option String → String
  | none => "None"
  | some s => s

/-- Rational subtraction spelled through `mkRat` on numerators and
denominators, so that it evaluates in the kernel (`qsub_eq` below
identifies it with `Sub.sub`). -/
def qsub (a b : ℚ) : ℚ :=
  mkRat (a.num * b.den - b.num * a.den) (a.den * b.den)

/-- Planar distance between two modelled point coordinates:
`|a - b|`, written with an explicit branch so that it evaluates in the
kernel. -/
def planarDist (a b : ℚ) : ℚ :=
  if a ≤ b then qsub b a else qsub a b

/-- Mirrors `DISTANCE_THRESHOLD` (facilities.py:11). -/
def DISTANCE_THRESHOLD : ℚ := 350

/-- Python `round`-to-one-decimal of a rational: the value `q * 10`
rounded to the nearest integer, ties to even, as `"%.1f"` formatting
does (the binary-float representation step is modelled as exact). -/
def pyRound1 (q : ℚ) : ℤ :=
  let x : ℚ := mkRat (q.num * 10) q.den
  let fl : ℤ := x.num / (x.den : ℤ)
  let frac : ℚ := qsub x (mkRat fl 1)
  if frac < mkRat 1 2 then fl
  else if mkRat 1 2 < frac then fl + 1
  else if fl % 2 = 0 then fl else fl + 1

/-- Python `f"{q:.1f}"`: fixed-point rendering with one decimal place. -/
def fmtFixed1 (q : ℚ) : String :=
  let n := pyRound1 q
  (if n < 0 then "-" else "") ++ toString (n.natAbs / 10) ++ "." ++ toString (n.natAbs % 10)

/-- Mirrors the frozen `Comparison` named tuple (facilities.py:44-56):
an optional geometry distance plus the requested attributes mapped to
their (register value, external value) pairs, in request order. -/
structure Comparison where
  distance : Option ℚ
  attrs : List (String × (PyVal × PyVal))
  deriving DecidableEq, Repr

/-- Mirrors `Comparison.is_geom_within_threshold` (facilities.py:48-52):
`False` on a null distance, else `distance < DISTANCE_THRESHOLD`. -/
def Comparison.is_geom_within_threshold (c : Comparison) : Bool :=
  match c.distance with
  | none => false
  | some d => d < DISTANCE_THRESHOLD

/-- The sub-map of an attribute map whose two values differ under
ordinary equality (the dict comprehension shared by
`Comparison.changed_attrs`, facilities.py:56, and
`Facility.update_from_other`, facilities.py:183). -/
def changedOf (attrs : List (String × (PyVal × PyVal))) : List (String × (PyVal × PyVal)) :=
  attrs.filter fun kv => decide (kv.2.1 ≠ kv.2.2)

/-- Mirrors `Comparison.changed_attrs` (facilities.py:54-56): the
sub-map of `attrs` whose two values differ under ordinary equality. -/
def Comparison.changed_attrs (c : Comparison) : List (String × (PyVal × PyVal)) :=
  changedOf c.attrs

/-! ## The schools record types (schools.py) -/

/-- Mirrors the `FacilitiesSchool` dataclass (schools.py:135-166): the
`Source` base fields followed by the facilities-register fields.
`last_modified` dates are modelled as integer day numbers. -/
structure FacilitiesSchool where
  source_id : ℤ
  source_name : String
  source_type : String
  geom : Option ℚ
  occupancy : Option ℤ
  change_action : Option ChangeAction
  change_description : Option String
  comments : Option String
  geometry_change : Option String
  facilities_id : Option ℤ
  facilities_name : Option String
  facilities_use : Option String
  facilities_subtype : Option String
  last_modified : Option ℤ
  sql : Option String
  deriving DecidableEq, Repr

/-- Mirrors the `MOESchool` dataclass (schools.py:54-84): the `Source`
base fields followed by the MOE-specific fields. -/
structure MOESchool where
  source_id : ℤ
  source_name : String
  source_type : String
  geom : Option ℚ
  occupancy : Option ℤ
  change_action : Option ChangeAction
  change_description : Option String
  comments : Option String
  geometry_change : Option String
  address : Option String
  suburb : Option String
  city : Option String
  roll_date : Option String
  latitude : Option String
  longitude : Option String
  deriving DecidableEq, Repr

/-- Per-attribute SQL fragment accumulation of
`FacilitiesSchool.generate_update_sql` (schools.py:234-241): the
`match attr` statement run over the changed attributes in order, with
unmatched names contributing nothing. -/
def sqlClausesSchools : List (String × (PyVal × PyVal)) → String
  | [] => ""
  | (attr, (_, newV)) :: rest =>
    (if attr = "source_name" then
      "  name='" ++ newV.pyStr ++ "',\n  source_name='" ++ newV.pyStr ++ "',\n"
    else if attr = "source_type" then "  use_type='" ++ newV.pyStr ++ "',\n"
    else if attr = "occupancy" then "  estimated_occupancy='" ++ newV.pyStr ++ "',\n"
    else "") ++ sqlClausesSchools rest

/-- Mirrors `FacilitiesSchool.generate_update_sql` (schools.py:226-244):
`None` when the comparison carries no attributes at all, else the
UPDATE statement over the changed attributes. -/
def FacilitiesSchool.generate_update_sql (self : FacilitiesSchool) (comparison : Comparison) :
    Option String :=
  if comparison.attrs = [] then none
  else
    some ("UPDATE facilities_lds.nz_facilities\nSET\n"
      ++ sqlClausesSchools comparison.changed_attrs
      ++ "  last_modified=CURRENT_DATE\n"
      ++ "WHERE facility_id=" ++ pyStrOptInt self.facilities_id
      ++ " AND source_facility_id=" ++ toString self.source_id ++ ";")

/-- Mirrors `FacilitiesSchool.update_from_comparison` (schools.py:183-203):
in-place update of the register record from a `Comparison`, returned
here as the updated record. -/
def FacilitiesSchool.update_from_comparison (self : FacilitiesSchool) (comparison : Comparison) :
    FacilitiesSchool :=
  let self1 :=
    if comparison.is_geom_within_threshold then self
    else
      { self with
        change_action := some .updateGeom
        change_description := some (match comparison.distance with
          | none => "Geom: missing"
          | some d => "Geom: " ++ fmtFixed1 d ++ "m") }
  let changed := comparison.changed_attrs
  if changed = [] then self1
  else
    let description := String.intercalate ", " (changed.map (·.1))
    let sql := self1.generate_update_sql comparison
    if self1.change_action = some .updateGeom then
      { self1 with
        change_action := some .updateGeomAttr
        change_description :=
          some (pyStrOptStr self1.change_description ++ ", Attrs: " ++ description)
        sql := sql }
    else
      { self1 with
        change_action := some .updateAttr
        change_description := some ("Attrs: " ++ description)
        sql := sql }

/-! ## The hospitals-era record types (facilities.py) -/

/-- Mirrors the `Source` base dataclass (facilities.py:59-77) as used
for external sources (`ExternalSource`, facilities.py:95): the shared
record fields, with an optional geometry. -/
structure ExternalSource where
  source_id : ℤ
  source_name : String
  source_type : String
  geom : Option ℚ
  occupancy : Option ℤ
  change_action : Option ChangeAction
  change_description : Option String
  comments : Option String
  geometry_change : Option String
  deriving DecidableEq, Repr

/-- Mirrors the `Facility` dataclass (facilities.py:101-129): the
`Source` base fields (with a non-optional polygon geometry) followed by
the facilities-register fields. -/
structure Facility where
  source_id : ℤ
  source_name : String
  source_type : String
  geom : ℚ
  occupancy : Option ℤ
  change_action : Option ChangeAction
  change_description : Option String
  comments : Option String
  geometry_change : Option String
  facilities_id : Option ℤ
  facilities_name : Option String
  facilities_use : Option String
  facilities_subtype : Option String
  last_modified : Option ℤ
  sql : Option String
  deriving DecidableEq, Repr

/-- Wraps an optional integer field as the `PyVal` Python `getattr`
would return. -/
def valOptInt : Option ℤ → PyVal
  | none => .vNone
  | some n => .vInt n

/-- Wraps an optional string field as the `PyVal` Python `getattr`
would return. -/
def valOptStr : Option String → PyVal
  | none => .vNone
  | some s => .vStr s

/-- Wraps an optional geometry field as the `PyVal` Python `getattr`
would return. -/
def valOptGeom : Option ℚ → PyVal
  | none => .vNone
  | some g => .vGeom g

/-- Wraps an optional change-action field as the `PyVal` Python
`getattr` would return. -/
def valOptAction : Option ChangeAction → PyVal
  | none => .vNone
  | some a => .vAction a

/-- Wraps an optional date field as the `PyVal` Python `getattr` would
return. -/
def valOptDate : Option ℤ → PyVal
  | none => .vNone
  | some d => .vDate d

/-- Python `getattr` on a `Facility` instance over its dataclass fields
(facilities.py:59-77 and 101-129); `none` models the `AttributeError`
raised for a name that is not such a field.  (Class-level attributes and
methods, which `getattr` would also resolve, are never requested by the
pipeline and are not modelled.) -/
def Facility.getAttr (f : Facility) (a : String) : Option PyVal :=
  if a = "source_id" then some (.vInt f.source_id)
  else if a = "source_name" then some (.vStr f.source_name)
  else if a = "source_type" then some (.vStr f.source_type)
  else if a = "geom" then some (.vGeom f.geom)
  else if a = "occupancy" then some (valOptInt f.occupancy)
  else if a = "change_action" then some (valOptAction f.change_action)
  else if a = "change_description" then some (valOptStr f.change_description)
  else if a = "comments" then some (valOptStr f.comments)
  else if a = "geometry_change" then some (valOptStr f.geometry_change)
  else if a = "facilities_id" then some (valOptInt f.facilities_id)
  else if a = "facilities_name" then some (valOptStr f.facilities_name)
  else if a = "facilities_use" then some (valOptStr f.facilities_use)
  else if a = "facilities_subtype" then some (valOptStr f.facilities_subtype)
  else if a = "last_modified" then some (valOptDate f.last_modified)
  else if a = "sql" then some (valOptStr f.sql)
  else none

/-- Python `getattr` on an `ExternalSource` instance over its dataclass
fields (facilities.py:59-77); `none` models the `AttributeError`. -/
def ExternalSource.getAttr (e : ExternalSource) (a : String) : Option PyVal :=
  if a = "source_id" then some (.vInt e.source_id)
  else if a = "source_name" then some (.vStr e.source_name)
  else if a = "source_type" then some (.vStr e.source_type)
  else if a = "geom" then some (valOptGeom e.geom)
  else if a = "occupancy" then some (valOptInt e.occupancy)
  else if a = "change_action" then some (valOptAction e.change_action)
  else if a = "change_description" then some (valOptStr e.change_description)
  else if a = "comments" then some (valOptStr e.comments)
  else if a = "geometry_change" then some (valOptStr e.geometry_change)
  else none

/-- Attribute names of the `Facility` dataclass, in declaration order. -/
def facilityAttrNames : List String :=
  ["source_id", "source_name", "source_type", "geom", "occupancy", "change_action",
   "change_description", "comments", "geometry_change", "facilities_id", "facilities_name",
   "facilities_use", "facilities_subtype", "last_modified", "sql"]

/-- Attribute names of the `ExternalSource` dataclass, in declaration
order. -/
def externalAttrNames : List String :=
  ["source_id", "source_name", "source_type", "geom", "occupancy", "change_action",
   "change_description", "comments", "geometry_change"]

/-- The dict comprehension of `Facility.update_from_other`
(facilities.py:182): `getattr` both sides for each requested attribute
in iteration order, failing on the first attribute missing from either
record. -/
def buildAttrs (self : Facility) (other : ExternalSource) :
    List String → Except String (List (String × (PyVal × PyVal)))
  | [] => .ok []
  | a :: rest =>
    match self.getAttr a with
    | none => .error ("AttributeError: " ++ a)
    | some va =>
      match other.getAttr a with
      | none => .error ("AttributeError: " ++ a)
      | some vb => (buildAttrs self other rest).map (fun l => (a, (va, vb)) :: l)

/-- Per-attribute SQL fragment accumulation of
`Facility._generate_update_sql` (facilities.py:203-210): the
`match attr` statement run over the changed attributes in order, with
unmatched names contributing nothing. -/
def sqlClausesFacilities : List (String × (PyVal × PyVal)) → String
  | [] => ""
  | (attr, (_, newV)) :: rest =>
    (if attr = "source_name" then
      "name='" ++ newV.pyStr ++ "',  source_name='" ++ newV.pyStr ++ "', "
    else if attr = "source_type" then "use_type='" ++ newV.pyStr ++ "', "
    else if attr = "occupancy" then "estimated_occupancy='" ++ newV.pyStr ++ "', "
    else "") ++ sqlClausesFacilities rest

/-- Mirrors `Facility._generate_update_sql` (facilities.py:197-213). -/
def Facility.generate_update_sql_of (self : Facility)
    (changed_attrs : List (String × (PyVal × PyVal))) : String :=
  "UPDATE facilities.facilities SET "
    ++ sqlClausesFacilities changed_attrs
    ++ "last_modified=CURRENT_DATE "
    ++ "WHERE facility_id=" ++ pyStrOptInt self.facilities_id
    ++ " AND source_facility_id=" ++ toString self.source_id ++ ";"

/-- Geometry distance computed by `Facility.update_from_other`
(facilities.py:171): `self.geom.distance(other.geom)` when the other
geometry is present, else `None`.  On the modelled carrier the shapely
planar distance is `|a - b|`. -/
def facilityExtDistance (self : Facility) (other : ExternalSource) : Option ℚ :=
  match other.geom with
  | some g => some (planarDist self.geom g)
  | none => none

/-- The attribute-change description string of
`Facility.update_from_other` (facilities.py:185): the changed
attributes rendered as `name: "old" -> "new"` joined with `"; "`. -/
def facilityAttrsDesc (changed : List (String × (PyVal × PyVal))) : String :=
  String.intercalate "; " (changed.map fun kv =>
    kv.1 ++ ": \"" ++ kv.2.1.pyStr ++ "\" -> \"" ++ kv.2.2.pyStr ++ "\"")

/-- The geometry-comparison phase of `Facility.update_from_other`
(facilities.py:170-179): record a geometry change when the distance is
missing or strictly greater than the threshold. -/
def Facility.geomPhase (self : Facility) (other : ExternalSource) : Facility :=
  match facilityExtDistance self other with
  | none =>
    { self with
      change_action := some .updateGeom
      change_description := some "Geom: missing"
      geometry_change := some "Missing" }
  | some d =>
    if DISTANCE_THRESHOLD < d then
      { self with
        change_action := some .updateGeom
        change_description := some ("Geom: " ++ fmtFixed1 d ++ "m")
        geometry_change := some "Modify" }
    else self

/-- Mirrors `Facility.update_from_other` (facilities.py:169-195).  The
result is the record state reached when the call returns or raises,
together with `some` error message if the attribute dict comprehension
raised `AttributeError` (in Python the exception propagates while the
earlier in-place geometry mutations remain visible to the caller). -/
def Facility.update_from_other (self : Facility) (other : ExternalSource)
    (check_attrs : List String) : Facility × Option String :=
  let self1 := self.geomPhase other
  match buildAttrs self1 other check_attrs with
  | .error e => (self1, some e)
  | .ok attrs =>
    let changed := changedOf attrs
    if changed = [] then (self1, none)
    else
      let description := facilityAttrsDesc changed
      let sql := self1.generate_update_sql_of changed
      if self1.change_action = some .updateGeom then
        ({ self1 with
           change_action := some .updateGeomAttr
           change_description :=
             some (pyStrOptStr self1.change_description ++ ", Attrs: " ++ description)
           sql := some sql
           geometry_change := some "Modify" }, none)
      else
        ({ self1 with
           change_action := some .updateAttr
           change_description := some ("Attrs: " ++ description)
           sql := some sql }, none)

/-- Python `dict.get` over an association list in insertion order. -/
def aget {κ α : Type} [DecidableEq κ] : List (κ × α) → κ → Option α
  | [], _ => none
  | (k, v) :: rest, k0 => if k = k0 then some v else aget rest k0

/-- One iteration of the first pass of `compare_facilities`
(facilities.py:227-232): the register record is updated from its
non-ignored external match, or marked for removal; an `AttributeError`
escaping `update_from_other` propagates. -/
def registerStepE (externals : List (ℤ × ExternalSource)) (attrs : List String)
    (p : ℤ × Facility) : Except String (ℤ × Facility) :=
  match aget externals p.1 with
  | some ext =>
    if ext.change_action ≠ some .ignore then
      match p.2.update_from_other ext attrs with
      | (f2, none) => .ok (p.1, f2)
      | (_, some e) => .error e
    else .ok (p.1, { p.2 with change_action := some .remove })
  | none => .ok (p.1, { p.2 with change_action := some .remove })

/-- First pass of `compare_facilities` (facilities.py:227-232) over the
whole register collection.  An `AttributeError` aborts the pass (the
partially-mutated collection state at that point is not needed by any
claim and is not returned). -/
def classifyRegister (externals : List (ℤ × ExternalSource)) (attrs : List String) :
    List (ℤ × Facility) → Except String (List (ℤ × Facility))
  | [] => .ok []
  | p :: rest =>
    match registerStepE externals attrs p with
    | .error e => .error e
    | .ok p2 => (classifyRegister externals attrs rest).map (fun l => p2 :: l)

/-- Mirrors `compare_facilities` (facilities.py:216-236): annotate the
register records against their external matches, then mark non-ignored
external records missing from the register as additions. -/
def compare_facilities (facilities : List (ℤ × Facility))
    (external_sources : List (ℤ × ExternalSource)) (comparison_attrs : List String) :
    Except String (List (ℤ × Facility) × List (ℤ × ExternalSource)) :=
  match classifyRegister external_sources comparison_attrs facilities with
  | .error e => .error e
  | .ok facilities2 =>
    let externals2 := external_sources.map fun p =>
      (p.1, if p.2.change_action ≠ some .ignore ∧ aget facilities p.1 = none then
        { p.2 with change_action := some .add }
      else p.2)
    .ok (facilities2, externals2)

/-! ## The schools classifier (schools.py) -/

/-- Python `getattr` on a `FacilitiesSchool` instance over its dataclass
fields (schools.py:135-166); `none` models the `AttributeError`. -/
def FacilitiesSchool.getAttr (f : FacilitiesSchool) (a : String) : Option PyVal :=
  if a = "source_id" then some (.vInt f.source_id)
  else if a = "source_name" then some (.vStr f.source_name)
  else if a = "source_type" then some (.vStr f.source_type)
  else if a = "geom" then some (valOptGeom f.geom)
  else if a = "occupancy" then some (valOptInt f.occupancy)
  else if a = "change_action" then some (valOptAction f.change_action)
  else if a = "change_description" then some (valOptStr f.change_description)
  else if a = "comments" then some (valOptStr f.comments)
  else if a = "geometry_change" then some (valOptStr f.geometry_change)
  else if a = "facilities_id" then some (valOptInt f.facilities_id)
  else if a = "facilities_name" then some (valOptStr f.facilities_name)
  else if a = "facilities_use" then some (valOptStr f.facilities_use)
  else if a = "facilities_subtype" then some (valOptStr f.facilities_subtype)
  else if a = "last_modified" then some (valOptDate f.last_modified)
  else if a = "sql" then some (valOptStr f.sql)
  else none

/-- Python `getattr` on a `MOESchool` instance over its dataclass fields
(schools.py:54-84); `none` models the `AttributeError`. -/
def MOESchool.getAttr (m : MOESchool) (a : String) : Option PyVal :=
  if a = "source_id" then some (.vInt m.source_id)
  else if a = "source_name" then some (.vStr m.source_name)
  else if a = "source_type" then some (.vStr m.source_type)
  else if a = "geom" then some (valOptGeom m.geom)
  else if a = "occupancy" then some (valOptInt m.occupancy)
  else if a = "change_action" then some (valOptAction m.change_action)
  else if a = "change_description" then some (valOptStr m.change_description)
  else if a = "comments" then some (valOptStr m.comments)
  else if a = "geometry_change" then some (valOptStr m.geometry_change)
  else if a = "address" then some (valOptStr m.address)
  else if a = "suburb" then some (valOptStr m.suburb)
  else if a = "city" then some (valOptStr m.city)
  else if a = "roll_date" then some (valOptStr m.roll_date)
  else if a = "latitude" then some (valOptStr m.latitude)
  else if a = "longitude" then some (valOptStr m.longitude)
  else none

/-- Attribute names of the `FacilitiesSchool` dataclass. -/
def facSchoolAttrNames : List String := facilityAttrNames

/-- Attribute names of the `MOESchool` dataclass. -/
def moeAttrNames : List String :=
  ["source_id", "source_name", "source_type", "geom", "occupancy", "change_action",
   "change_description", "comments", "geometry_change", "address", "suburb", "city",
   "roll_date", "latitude", "longitude"]

/-- The attribute pairs requested by `Source.compare`, built like
`buildAttrs` but over the schools record types. -/
def buildAttrsSchool (self : FacilitiesSchool) (other : MOESchool) :
    List String → Except String (List (String × (PyVal × PyVal)))
  | [] => .ok []
  | a :: rest =>
    match self.getAttr a with
    | none => .error ("AttributeError: " ++ a)
    | some va =>
      match other.getAttr a with
      | none => .error ("AttributeError: " ++ a)
      | some vb => (buildAttrsSchool self other rest).map (fun l => (a, (va, vb)) :: l)

/-- Modelled from the spec: `Source.compare`, which `compare_schools`
calls (schools.py:329) but whose definition is not among the source
files under scrutiny.  Per §4.1 of the spec it produces a frozen
`Comparison(distance, attrs)`: the planar distance between the two
geometries when both are present (null when either is null, modelled as
`|a - b|` on our carrier) and, for each requested attribute name, the
pair of the two records' values, failing immediately on an attribute
name not present on both record types. -/
def FacilitiesSchool.compare (self : FacilitiesSchool) (other : MOESchool)
    (check_geom : Bool) (check_attrs : List String) : Except String Comparison :=
  let distance : Option ℚ :=
    if check_geom then
      match self.geom, other.geom with
      | some a, some b => some (planarDist a b)
      | _, _ => none
    else none
  match buildAttrsSchool self other check_attrs with
  | .error e => .error e
  | .ok attrs => .ok ⟨distance, attrs⟩

/-- First pass of `compare_schools` (schools.py:326-332): each register
school is updated from the comparison with its non-ignored MOE match,
or marked for removal. -/
def classifySchools (moe_schools : List (ℤ × MOESchool)) (attrs : List String) :
    List (ℤ × FacilitiesSchool) → Except String (List (ℤ × FacilitiesSchool))
  | [] => .ok []
  | (fid, f) :: rest =>
    let hd : Except String (ℤ × FacilitiesSchool) :=
      match aget moe_schools fid with
      | some m =>
        if m.change_action ≠ some .ignore then
          match f.compare m true attrs with
          | .error e => .error e
          | .ok comparison => .ok (fid, f.update_from_comparison comparison)
        else .ok (fid, { f with change_action := some .remove })
      | none => .ok (fid, { f with change_action := some .remove })
    match hd with
    | .error e => .error e
    | .ok p => (classifySchools moe_schools attrs rest).map (fun l => p :: l)

/-- Mirrors `compare_schools` (schools.py:315-336). -/
def compare_schools (facilities_schools : List (ℤ × FacilitiesSchool))
    (moe_schools : List (ℤ × MOESchool)) (comparison_attrs : List String) :
    Except String (List (ℤ × FacilitiesSchool) × List (ℤ × MOESchool)) :=
  match classifySchools moe_schools comparison_attrs facilities_schools with
  | .error e => .error e
  | .ok facilities2 =>
    let moe2 := moe_schools.map fun p =>
      (p.1, if p.2.change_action ≠ some .ignore ∧ aget facilities_schools p.1 = none then
        { p.2 with change_action := some .add }
      else p.2)
    .ok (facilities2, moe2)

/-! ## CLI validation of the comparison attributes (cli/parsers.py) -/

/-- Mirrors `Source.comparable_attrs()` (facilities.py:83-85): the union
of the default and optional comparable attribute sets, listed here in
the sorted order used by the CLI error messages. -/
def comparableAttrsSorted : List String :=
  ["occupancy", "source_id", "source_name", "source_type"]

/-- The `options_msg` string of `parse_comparison_arg`
(cli/parsers.py:44). -/
def optionsMsg : String :=
  "Valid options are occupancy,source_id,source_name,source_type."

/-- Splitting a character list on commas (structural recursion, so that
it evaluates in the kernel). -/
def splitCommaChars : List Char → List (List Char)
  | [] => [[]]
  | c :: rest =>
    match splitCommaChars rest with
    | s :: ss => if c = ',' then [] :: s :: ss else (c :: s) :: ss
    | [] => if c = ',' then [[], []] else [[c]]

/-- Python `comparison_arg.split(",")` (cli/parsers.py:45). -/
def pySplitComma (s : String) : List String :=
  (splitCommaChars s.data).map String.mk

/-- Mirrors `parse_comparison_arg` (cli/parsers.py:35-60): split the
argument on commas, partition into valid and invalid attribute names,
and fail (`typer.BadParameter`, modelled as `Except.error` carrying the
message) on any invalid name, or when no valid name remains. -/
def parse_comparison_arg (comparison_arg : String) : Except String (List String) :=
  let parts := pySplitComma comparison_arg
  let valid_attrs := parts.filter fun p => decide (p ∈ comparableAttrsSorted)
  let invalid_attrs := parts.filter fun p => decide (p ∉ comparableAttrsSorted)
  match invalid_attrs with
  | [] =>
    if valid_attrs = [] then
      .error ("No valid attributes to compare on were passed. " ++ optionsMsg)
    else .ok valid_attrs
  | [x] =>
    .error ("\"" ++ x ++ "\" is not a valid attribute to compare on. " ++ optionsMsg)
  | xs =>
    .error ("\"" ++ String.intercalate ", " xs
      ++ "\" are not valid attributes to compare on. " ++ optionsMsg ++ ".")

/-! ## The hospitals comparison (hospitals.py) -/

/-- A row of the hospitals facilities GeoDataFrame as consumed by
`compare_facilities_to_hpi` (hospitals.py:471-557): its geometry, the
three compared columns, the two annotation columns the function
initialises, and the `hpi_*` columns it adds while comparing.  Cell
values other than the geometry may be missing (`pd.NA` / `None` /
`NaN`), all modelled as `PyVal.vNone`. -/
structure FacRow where
  geometry : ℚ
  name : PyVal
  use_subtype : PyVal
  estimated_occupancy : PyVal
  change_action : Option ChangeAction
  change_description : Option String
  hpi_extra : List (String × PyVal)
  deriving DecidableEq, Repr

/-- A row of the HPI GeoDataFrame as consumed by
`compare_facilities_to_hpi`: its (possibly missing) geometry and the
three compared columns. -/
structure HpiRow where
  geometry : Option ℚ
  name : PyVal
  type : PyVal
  occupancy : PyVal
  deriving DecidableEq, Repr

/-- Mirrors `pd.isna` on a cell value. -/
def pdIsna (v : PyVal) : Bool := v = .vNone

/-- Mirrors `FACILITIES_HPI_COMPARISON_COLUMNS` (hospitals.py:49). -/
def FACILITIES_HPI_COMPARISON_COLUMNS : List (String × String) :=
  [("name", "name"), ("use_subtype", "type"), ("estimated_occupancy", "occupancy")]

/-- Cell access `facilities_attrs[facilities_col]` for the compared
columns. -/
def FacRow.colVal (f : FacRow) : String → PyVal
  | "name" => f.name
  | "use_subtype" => f.use_subtype
  | "estimated_occupancy" => f.estimated_occupancy
  | _ => .vNone

/-- Cell access `hpi_attrs[hpi_col]` for the compared columns. -/
def HpiRow.colVal (h : HpiRow) : String → PyVal
  | "name" => h.name
  | "type" => h.type
  | "occupancy" => h.occupancy
  | _ => .vNone

/-- The comparison loop of `compare_facilities_to_hpi`
(hospitals.py:530-536): for each column pair, record a change (and an
added `hpi_*` column) when either value is missing or the values
differ.  Returns the `attr_changes` entries and the added columns, in
loop order. -/
def hpiAttrChanges (f : FacRow) (h : HpiRow) :
    List (String × String) → List (String × (PyVal × PyVal)) × List (String × PyVal)
  | [] => ([], [])
  | (fcol, hcol) :: rest =>
    let fv := f.colVal fcol
    let hv := h.colVal hcol
    let r := hpiAttrChanges f h rest
    if pdIsna fv ∨ pdIsna hv ∨ fv ≠ hv then
      ((fcol, (fv, hv)) :: r.1, ("hpi_" ++ hcol, hv) :: r.2)
    else r

/-- The per-match row update of `compare_facilities_to_hpi`
(hospitals.py:512-546), applied to the facilities row matched by one
HPI row.  (The `change_description +=` escalation is only reached with
a string already present; a `none` there would be a Python
`TypeError` and is left unchanged by the model.) -/
def updateFacRowFromHpi (f : FacRow) (h : HpiRow) : FacRow :=
  let distance : Option ℚ :=
    match h.geometry with
    | some g => some (planarDist f.geometry g)
    | none => none
  let f1 :=
    match distance with
    | none =>
      { f with change_action := some .updateGeom, change_description := some "Geom: missing" }
    | some d =>
      if DISTANCE_THRESHOLD < d then
        { f with
          change_action := some .updateGeom
          change_description := some ("Geom: " ++ fmtFixed1 d ++ "m") }
      else f
  let changes := hpiAttrChanges f1 h FACILITIES_HPI_COMPARISON_COLUMNS
  let f2 := { f1 with hpi_extra := f1.hpi_extra ++ changes.2 }
  if changes.1 = [] then f2
  else
    let description := String.intercalate ";  " (changes.1.map fun kv =>
      kv.1 ++ ": \"" ++ kv.2.1.pyStr ++ "\" -> \"" ++ kv.2.2.pyStr ++ "\"")
    if f2.change_action = some .updateGeom then
      { f2 with
        change_action := some .updateGeomAttr
        change_description := f2.change_description.map (· ++ ";  " ++ description) }
    else
      { f2 with change_action := some .updateAttr, change_description := some description }

/-- Python in-place update of an existing key of a dict modelled as an
association list (no-op if the key is absent, which the callers below
never rely on). -/
def aset {κ α : Type} [DecidableEq κ] : List (κ × α) → κ → α → List (κ × α)
  | [], _, _ => []
  | (k, v) :: rest, k0, v0 => if k = k0 then (k, v0) :: rest else (k, v) :: aset rest k0 v0

/-- The HPI iteration of `compare_facilities_to_hpi`
(hospitals.py:503-546): walk the HPI rows, collecting unmatched rows
into `new` and matched rows into `matched` while updating the matched
facilities rows in place. -/
def hpiLoop : List (String × FacRow) → List (String × HpiRow) →
    List (String × FacRow) × List (String × HpiRow) × List (String × HpiRow)
  | facs, [] => (facs, [], [])
  | facs, (hid, h) :: rest =>
    match aget facs hid with
    | none =>
      let r := hpiLoop facs rest
      (r.1, (hid, h) :: r.2.1, r.2.2)
    | some f =>
      let r := hpiLoop (aset facs hid (updateFacRowFromHpi f h)) rest
      (r.1, r.2.1, (hid, h) :: r.2.2)

/-- Mirrors `compare_facilities_to_hpi` (hospitals.py:471-557):
initialise the two annotation columns, walk the HPI rows updating
matches and collecting `new` / `matched`, then mark every facilities
row whose id is absent from the HPI data for removal. -/
def compare_facilities_to_hpi (facilities : List (String × FacRow))
    (hpi : List (String × HpiRow)) :
    List (String × FacRow) × List (String × HpiRow) × List (String × HpiRow) :=
  let facilities0 := facilities.map fun p =>
    (p.1, { p.2 with change_action := none, change_description := none })
  let r := hpiLoop facilities0 hpi
  let updated := r.1.map fun p =>
    (p.1, if aget hpi p.1 = none then { p.2 with change_action := some .remove } else p.2)
  (updated, r.2.1, r.2.2)

/-! ## The parcel merger (polygonise.py)

Parcel geometries are modelled as finite nonempty sets of integer
coordinates on a line (`List ℤ` up to duplication): `shapely`'s
planar primitives restrict there to `intersects` = membership,
`union_all` = set union, `distance` = least pairwise `|a - b|`, and the
spatial-index bounding box of a parcel = the interval from its least to
its greatest coordinate. -/

/-- One row of the titles-with-owners GeoDataFrame built by
`build_titles_with_owners` (polygonise.py:103-181): the title id, the
owner name columns (missing for titles with no owner row after the
left join) and the parcel geometry. -/
structure Parcel where
  id : ℤ
  owner_name : Option String
  standardised_owner_name : Option String
  geom : List ℤ
  deriving DecidableEq, Repr

/-- Mirrors `TITLE_MERGE_MAX_ROUNDS` (polygonise.py:13). -/
def TITLE_MERGE_MAX_ROUNDS : ℕ := 20

/-- Owner-column access selected by `use_standardised_names`
(polygonise.py:239-242). -/
def ownerOf (use_standardised_names : Bool) (p : Parcel) : Option String :=
  if use_standardised_names then p.standardised_owner_name else p.owner_name

/-- Bounding-box test of the spatial index query
(`TITLES_GDF.sindex.query(row.geometry)`, polygonise.py:248): on the
modelled carrier, whether the point lies between the least and greatest
coordinate of the parcel. -/
def bboxContains (g : List ℤ) (pt : ℤ) : Bool :=
  match g with
  | [] => false
  | x :: xs => decide (xs.foldl min x ≤ pt ∧ pt ≤ xs.foldl max x)

/-- The rough spatial-index candidates (polygonise.py:248). -/
def sindexQuery (titles : List Parcel) (pt : ℤ) : List Parcel :=
  titles.filter fun p => bboxContains p.geom pt

/-- The candidates refined to true intersections (polygonise.py:253). -/
def matchingTitlesOf (titles : List Parcel) (pt : ℤ) : List Parcel :=
  (sindexQuery titles pt).filter fun p => p.geom.contains pt

/-- The deduplicated owner set of the intersecting titles with missing
owners dropped (`set(...)` then `remove(pd.NA)`, polygonise.py:258-263),
in first-occurrence order. -/
def allOwnersOf (use_standardised_names : Bool) (matching : List Parcel) : List String :=
  (matching.filterMap (ownerOf use_standardised_names)).dedup

/-- Mirrors `shapely.union_all` on the modelled carrier: the set union
of the geometries, in first-occurrence order. -/
def unionGeoms (gs : List (List ℤ)) : List ℤ :=
  gs.flatten.dedup

/-- Coordinate distance `|a - b|` on the modelled integer carrier,
written with an explicit branch so that it evaluates in the kernel. -/
def coordDist (a b : ℤ) : ℤ :=
  if a ≤ b then b - a else a - b

/-- Mirrors `shapely` geometry-to-geometry distance on the modelled
carrier: the least pairwise coordinate distance (`none` only for an
empty operand, which the merger never produces). -/
def setDistance (g1 g2 : List ℤ) : Option ℤ :=
  match g1.flatMap fun a => g2.map fun b => coordDist a b with
  | [] => none
  | d :: rest => some (rest.foldl min d)

/-- The membership test used by the absorption filters: distance to the
current seed geometry within the threshold (polygonise.py:280). -/
def withinThreshold (threshold : ℤ) (g seed : List ℤ) : Bool :=
  match setDistance g seed with
  | some d => decide (d ≤ threshold)
  | none => false

/-- Mirrors `titles_with_same_owner` (polygonise.py:271-273): the
titles whose owner is in the seed owner set and which are not among the
initially-intersecting titles.  A missing owner never tests `isin`
positively. -/
def sameOwnerPool (use_standardised_names : Bool) (titles matching : List Parcel) :
    List Parcel :=
  titles.filter fun p =>
    (match ownerOf use_standardised_names p with
      | some o => decide (o ∈ allOwnersOf use_standardised_names matching)
      | none => false)
    && !((matching.map (·.id)).contains p.id)

/-- Mirrors the `while True` absorption loop of `find_matching_titles`
(polygonise.py:275-291), with explicit structural fuel: each iteration
finds the not-yet-merged pool titles within the distance threshold of
the current seed geometry, marks them merged, and either stops (none
found, or the round counter has reached `TITLE_MERGE_MAX_ROUNDS`) or
unions them into the seed.  Returns the final seed geometry and the
final value of the round counter.  The fuel never runs out when
`TITLE_MERGE_MAX_ROUNDS < rounds + fuel` (`mergeLoop_fuel_eq` below),
which holds at the entry point `fuel = TITLE_MERGE_MAX_ROUNDS`,
`rounds = 1`, so the fuel is an artefact-free rendering of the
unconditional Python loop. -/
def mergeLoop (pool : List Parcel) (threshold : ℤ) :
    ℕ → ℕ → List ℤ → List ℤ → List ℤ × ℕ
  | 0, rounds, _, geom => (geom, rounds)
  | fuel + 1, rounds, merged_ids, geom =>
    let nearby := pool.filter fun p =>
      !(merged_ids.contains p.id) && withinThreshold threshold p.geom geom
    let merged2 := merged_ids ++ nearby.map (·.id)
    if nearby = [] ∨ TITLE_MERGE_MAX_ROUNDS ≤ rounds then (geom, rounds)
    else mergeLoop pool threshold fuel (rounds + 1) merged2
      (unionGeoms (geom :: nearby.map (·.geom)))

/-- The three-column result row of `find_matching_titles`
(polygonise.py:243, 293): the merged geometry (or `None`) and the
joined owner names and owner count (or `pd.NA`, modelled as `none`). -/
structure MatchResult where
  geometry : Option (List ℤ)
  owner_names : Option String
  owner_count : Option ℕ
  deriving DecidableEq, Repr

/-- Mirrors `none_return_value = pd.Series([None, pd.NA, pd.NA])`
(polygonise.py:243). -/
def noneReturnValue : MatchResult := ⟨none, none, none⟩

/-- Code-point lexicographic comparison of character lists, as Python
string comparison performs it. -/
def charListLe : List Char → List Char → Bool
  | [], _ => true
  | _ :: _, [] => false
  | a :: as, b :: bs =>
    if a.toNat < b.toNat then true
    else if b.toNat < a.toNat then false
    else charListLe as bs

/-- Python `<=` on strings. -/
def pyStrLe (a b : String) : Bool :=
  charListLe a.data b.data

/-- Insertion step of `sortStrings`. -/
def insertSorted (x : String) : List String → List String
  | [] => [x]
  | y :: ys => if pyStrLe x y then x :: y :: ys else y :: insertSorted x ys

/-- Python `sorted` on strings (code-point lexicographic order). -/
def sortStrings : List String → List String
  | [] => []
  | x :: xs => insertSorted x (sortStrings xs)

/-- Mirrors `find_matching_titles` (polygonise.py:184-293).  The first
argument is the `TITLES_GDF` global (`none` when the titles file has
not been loaded, in which case the `ValueError` is raised, modelled as
`Except.error`); the last is the point row's geometry. -/
def find_matching_titles (titles_gdf : Option (List Parcel)) (use_standardised_names : Bool)
    (distance_threshold : ℤ) (row_geometry : Option ℤ) : Except String MatchResult :=
  match titles_gdf with
  | none => .error "Global TITLES_GDF has not been set"
  | some titles =>
    match row_geometry with
    | none => .ok noneReturnValue
    | some pt =>
      let rough := sindexQuery titles pt
      if rough = [] then .ok noneReturnValue
      else
        let matching := rough.filter fun p => p.geom.contains pt
        if matching = [] then .ok noneReturnValue
        else
          let all_owners := allOwnersOf use_standardised_names matching
          let geom0 := unionGeoms (matching.map (·.geom))
          let pool := sameOwnerPool use_standardised_names titles matching
          let res := mergeLoop pool distance_threshold TITLE_MERGE_MAX_ROUNDS 1 [] geom0
          .ok ⟨some res.1, some (String.intercalate ", " (sortStrings all_owners)),
               some all_owners.length⟩

/-! ## Basic lemmas about the embedding -/

theorem qsub_eq (a b : ℚ) : qsub a b = a - b := by
  have ha : ((a.den : ℚ)) ≠ 0 := by exact_mod_cast a.den_nz
  have hb : ((b.den : ℚ)) ≠ 0 := by exact_mod_cast b.den_nz
  rw [qsub, Rat.mkRat_eq_div]
  push_cast
  conv_rhs => rw [← Rat.num_div_den a, ← Rat.num_div_den b]
  rw [div_sub_div _ _ ha hb]
  ring_nf

theorem planarDist_eq (a b : ℚ) : planarDist a b = |a - b| := by
  rw [planarDist]
  split_ifs with h
  · rw [qsub_eq, abs_sub_comm, abs_of_nonneg (by linarith)]
  · rw [qsub_eq, abs_of_pos (by linarith [lt_of_not_le h])]

theorem planarDist_self (a : ℚ) : planarDist a a = 0 := by
  rw [planarDist_eq, sub_self, abs_zero]

theorem planarDist_nonneg (a b : ℚ) : 0 ≤ planarDist a b := by
  rw [planarDist_eq]; exact abs_nonneg _

theorem aget_eq_none_iff {κ α : Type} [DecidableEq κ] (l : List (κ × α)) (k : κ) :
    aget l k = none ↔ k ∉ l.map Prod.fst := by
  induction l with
  | nil => simp [aget]
  | cons p rest ih =>
    obtain ⟨k0, v⟩ := p
    by_cases h : k0 = k
    · subst h; simp [aget]
    · simp [aget, h, ih, Ne.symm h]

theorem aget_mem {κ α : Type} [DecidableEq κ] {l : List (κ × α)} {k : κ} {v : α}
    (h : aget l k = some v) : (k, v) ∈ l := by
  induction l with
  | nil => simp [aget] at h
  | cons p rest ih =>
    obtain ⟨k0, v0⟩ := p
    rcases Decidable.em (k0 = k) with hk | hk
    · subst hk
      rw [aget, if_pos rfl] at h
      cases h
      exact List.mem_cons_self _ _
    · rw [aget, if_neg hk] at h
      exact List.mem_cons_of_mem _ (ih h)

theorem aget_of_mem {κ α : Type} [DecidableEq κ] {l : List (κ × α)} {k : κ} {v : α}
    (hn : (l.map Prod.fst).Nodup) (h : (k, v) ∈ l) : aget l k = some v := by
  induction l with
  | nil => simp at h
  | cons p rest ih =>
    obtain ⟨k0, v0⟩ := p
    rw [List.map_cons, List.nodup_cons] at hn
    rcases List.mem_cons.mp h with h1 | h1
    · cases h1
      rw [aget, if_pos rfl]
    · have hk : k0 ≠ k := by
        rintro rfl
        exact hn.1 (List.mem_map.mpr ⟨(k0, v), h1, rfl⟩)
      rw [aget, if_neg hk]
      exact ih hn.2 h1

theorem aget_isSome_iff {κ α : Type} [DecidableEq κ] (l : List (κ × α)) (k : κ) :
    (aget l k).isSome = true ↔ k ∈ l.map Prod.fst := by
  rw [← not_iff_not, ← aget_eq_none_iff (l := l) (k := k)]
  cases aget l k <;> simp

/-! ## The C3 claim: the geometry threshold test -/

/-- C3: `is_geom_within_threshold()` returns true iff the distance is
non-null and strictly less than the fixed domain threshold (350 in this
revision); just below the threshold is within, exactly at or above the
threshold (or a null distance) is not. -/
theorem C3_geom_within_threshold_iff :
    (∀ c : Comparison, c.is_geom_within_threshold = true ↔
       ∃ d : ℚ, c.distance = some d ∧ d < DISTANCE_THRESHOLD) ∧
    Comparison.is_geom_within_threshold ⟨some (mkRat 349999 1000), []⟩ = true ∧
    Comparison.is_geom_within_threshold ⟨some 350, []⟩ = false ∧
    Comparison.is_geom_within_threshold ⟨some 351, []⟩ = false ∧
    Comparison.is_geom_within_threshold ⟨none, []⟩ = false := by
  refine ⟨?_, by decide, by decide, by decide, rfl⟩
  intro c
  rcases c with ⟨d, attrs⟩
  cases d with
  | none => simp [Comparison.is_geom_within_threshold]
  | some q => simp [Comparison.is_geom_within_threshold]

/-! ## The C1 claim: the per-record update rules -/

/-- The geometry-change description produced by both per-record updates:
`"Geom: missing"` for a null distance, else the distance formatted to
one decimal place between `"Geom: "` and `"m"`. -/
def geomDescOf : Option ℚ → String
  | none => "Geom: missing"
  | some d => "Geom: " ++ fmtFixed1 d ++ "m"

/-- The geometry-change trigger as `Facility.update_from_other`
implements it (facilities.py:172-176): distance missing, or strictly
greater than the threshold.  This is not the negation of
`is_geom_within_threshold`: the two differ exactly at a distance equal
to the threshold. -/
def geomFlagOther : Option ℚ → Bool
  | none => true
  | some d => DISTANCE_THRESHOLD < d

theorem append_comma_attrs (g k : String) :
    g ++ ", Attrs: " ++ k = g ++ ", " ++ ("Attrs: " ++ k) := by
  have h : (", " : String) ++ "Attrs: " = ", Attrs: " := rfl
  rw [String.append_assoc, String.append_assoc, ← String.append_assoc ", ", h]

/-- C1 (amended): for a matched, non-ignored pair with the register
record still unclassified, (a) `FacilitiesSchool.update_from_comparison`
behaves exactly as the claim states, keyed on
`is_geom_within_threshold()`; (b) `Facility.update_from_other` behaves
the same way except that its geometry trigger is distance missing or
strictly greater than the threshold (`geomFlagOther`), so at a distance
exactly equal to the threshold it records no geometry change even
though `is_geom_within_threshold()` is false there. -/
theorem C1_per_record_update :
    (∀ (f : FacilitiesSchool) (c : Comparison), f.change_action = none →
      (c.is_geom_within_threshold = false → c.changed_attrs = [] →
        (f.update_from_comparison c).change_action = some .updateGeom ∧
        (f.update_from_comparison c).change_description = some (geomDescOf c.distance)) ∧
      (c.is_geom_within_threshold = false → c.changed_attrs ≠ [] →
        (f.update_from_comparison c).change_action = some .updateGeomAttr ∧
        (f.update_from_comparison c).change_description =
          some (geomDescOf c.distance ++ ", " ++
            ("Attrs: " ++ String.intercalate ", " (c.changed_attrs.map Prod.fst)))) ∧
      (c.is_geom_within_threshold = true → c.changed_attrs ≠ [] →
        (f.update_from_comparison c).change_action = some .updateAttr) ∧
      (c.is_geom_within_threshold = true → c.changed_attrs = [] →
        f.update_from_comparison c = f)) ∧
    (∀ (fac : Facility) (ext : ExternalSource) (check_attrs : List String)
       (al : List (String × (PyVal × PyVal))),
      fac.change_action = none →
      buildAttrs (fac.geomPhase ext) ext check_attrs = .ok al →
      (fac.update_from_other ext check_attrs).2 = none ∧
      (geomFlagOther (facilityExtDistance fac ext) = true → changedOf al = [] →
        (fac.update_from_other ext check_attrs).1.change_action = some .updateGeom ∧
        (fac.update_from_other ext check_attrs).1.change_description =
          some (geomDescOf (facilityExtDistance fac ext))) ∧
      (geomFlagOther (facilityExtDistance fac ext) = true → changedOf al ≠ [] →
        (fac.update_from_other ext check_attrs).1.change_action = some .updateGeomAttr ∧
        (fac.update_from_other ext check_attrs).1.change_description =
          some (geomDescOf (facilityExtDistance fac ext) ++ ", " ++
            ("Attrs: " ++ facilityAttrsDesc (changedOf al)))) ∧
      (geomFlagOther (facilityExtDistance fac ext) = false → changedOf al ≠ [] →
        (fac.update_from_other ext check_attrs).1.change_action = some .updateAttr) ∧
      (geomFlagOther (facilityExtDistance fac ext) = false → changedOf al = [] →
        (fac.update_from_other ext check_attrs).1 = fac)) := by
  constructor
  · intro f c hf
    refine ⟨?_, ?_, ?_, ?_⟩
    · intro hw hc
      simp [FacilitiesSchool.update_from_comparison, hw, hc, geomDescOf]
    · intro hw hc
      simp [FacilitiesSchool.update_from_comparison, hw, hc, geomDescOf, pyStrOptStr,
        append_comma_attrs]
    · intro hw hc
      simp [FacilitiesSchool.update_from_comparison, hw, hc, hf]
    · intro hw hc
      simp [FacilitiesSchool.update_from_comparison, hw, hc]
  · intro fac ext check_attrs al hf hok
    cases hd : facilityExtDistance fac ext with
    | none =>
      have hphase : fac.geomPhase ext =
          { fac with
            change_action := some .updateGeom
            change_description := some "Geom: missing"
            geometry_change := some "Missing" } := by
        rw [Facility.geomPhase, hd]
      rw [hphase] at hok
      refine ⟨?_, ?_, ?_, ?_, ?_⟩
      · by_cases hc : changedOf al = [] <;>
          simp [Facility.update_from_other, hphase, hok, hc]
      · intro _ hc
        simp [Facility.update_from_other, hphase, hok, hc, geomDescOf]
      · intro _ hc
        simp [Facility.update_from_other, hphase, hok, hc, geomDescOf, pyStrOptStr,
          append_comma_attrs]
        rw [← String.append_assoc]
        rfl
      · intro hcontra
        simp [geomFlagOther] at hcontra
      · intro hcontra
        simp [geomFlagOther] at hcontra
    | some d =>
      by_cases hdt : DISTANCE_THRESHOLD < d
      · have hphase : fac.geomPhase ext =
            { fac with
              change_action := some .updateGeom
              change_description := some ("Geom: " ++ fmtFixed1 d ++ "m")
              geometry_change := some "Modify" } := by
          simp only [Facility.geomPhase, hd]
          rw [if_pos hdt]
        rw [hphase] at hok
        refine ⟨?_, ?_, ?_, ?_, ?_⟩
        · by_cases hc : changedOf al = [] <;>
            simp [Facility.update_from_other, hphase, hok, hc]
        · intro _ hc
          simp [Facility.update_from_other, hphase, hok, hc, geomDescOf]
        · intro _ hc
          simp [Facility.update_from_other, hphase, hok, hc, geomDescOf, pyStrOptStr,
            append_comma_attrs]
        · intro hcontra
          simp [geomFlagOther, hdt] at hcontra
        · intro hcontra
          simp [geomFlagOther, hdt] at hcontra
      · have hphase : fac.geomPhase ext = fac := by
          simp only [Facility.geomPhase, hd]
          rw [if_neg hdt]
        rw [hphase] at hok
        refine ⟨?_, ?_, ?_, ?_, ?_⟩
        · by_cases hc : changedOf al = [] <;>
            simp [Facility.update_from_other, hphase, hok, hc, hf]
        · intro hcontra
          simp [geomFlagOther, hdt] at hcontra
        · intro hcontra
          simp [geomFlagOther, hdt] at hcontra
        · intro _ hc
          simp [Facility.update_from_other, hphase, hok, hc, hf]
        · intro _ hc
          simp [Facility.update_from_other, hphase, hok, hc]

/-- A register facility at coordinate 0 with no classification yet,
used to exhibit the threshold-boundary behaviour. -/
def facAtThreshold : Facility :=
  ⟨7, "Same Name", "Hospital", 0, none, none, none, none, none, some 1, none, none, none,
   none, none⟩

/-- An external record at coordinate 350 — exactly the distance
threshold away from `facAtThreshold` — with identical attributes. -/
def extAtThreshold : ExternalSource :=
  ⟨7, "Same Name", "Hospital", some 350, none, none, none, none, none⟩

/-- C1 (counterexample): at a distance exactly equal to the threshold,
`is_geom_within_threshold()` is false, yet `Facility.update_from_other`
leaves the register record's `change_action` at null instead of setting
`update_geometry` as the claim requires. -/
theorem C1_counterexample :
    facilityExtDistance facAtThreshold extAtThreshold = some 350 ∧
    Comparison.is_geom_within_threshold
      ⟨facilityExtDistance facAtThreshold extAtThreshold, []⟩ = false ∧
    (facAtThreshold.update_from_other extAtThreshold ["source_name"]).1.change_action
      = none := by
  refine ⟨by decide, by decide, by decide⟩

/-- A register school with no classification yet, for the C1 witness. -/
def schoolW : FacilitiesSchool :=
  ⟨70, "Old School", "Primary", some 5, none, none, none, none, none, some 2, none, none,
   none, none, none⟩

/-- A comparison at distance 400 with one changed attribute, for the C1
witness. -/
def compW : Comparison :=
  ⟨some 400, [("source_name", (.vStr "Old School", .vStr "New School"))]⟩

/-- A register facility at coordinate 0, for the C1 witness. -/
def facW : Facility :=
  ⟨71, "Old Hosp", "Hospital", 0, none, none, none, none, none, some 3, none, none, none,
   none, none⟩

/-- An external record 10 away from `facW` with a changed name, for the
C1 witness. -/
def extW : ExternalSource :=
  ⟨71, "New Hosp", "Hospital", some 10, none, none, none, none, none⟩

/-- Witness for C1: the amended theorem applied at concrete inputs —
a school comparison outside the threshold with one changed attribute
escalates to `update_geom_attr` with the concatenated description, and
a facility pair within the threshold with one changed attribute yields
`update_attr`. -/
theorem C1_witness :
    ((schoolW.update_from_comparison compW).change_action = some .updateGeomAttr ∧
      (schoolW.update_from_comparison compW).change_description =
        some (geomDescOf compW.distance ++ ", " ++
          ("Attrs: " ++ String.intercalate ", " (compW.changed_attrs.map Prod.fst)))) ∧
    (facW.update_from_other extW ["source_name"]).1.change_action = some .updateAttr :=
  ⟨(C1_per_record_update.1 schoolW compW rfl).2.1 (by decide) (by decide),
   ((C1_per_record_update.2 facW extW ["source_name"]
      [("source_name", (.vStr "Old Hosp", .vStr "New Hosp"))] rfl
      rfl).2.2.2.1 (by decide) (by decide))⟩

/-! ## The C6 claim: the generated SQL UPDATE statements -/

/-- Substring occurrence: `frag` occurs contiguously inside `s`. -/
def StrContains (s frag : String) : Prop :=
  ∃ p q, s = p ++ frag ++ q

/-- The attribute names the SQL generators map to SET clauses
(schools.py:235-241, facilities.py:204-210). -/
def mappedSqlAttrs : List String := ["source_name", "source_type", "occupancy"]

theorem str_empty_append (s : String) : "" ++ s = s := by
  cases s
  rfl

theorem strContains_prepend {s frag : String} (pre : String) (h : StrContains s frag) :
    StrContains (pre ++ s) frag := by
  obtain ⟨p, q, rfl⟩ := h
  exact ⟨pre ++ p, q, by rw [← String.append_assoc, ← String.append_assoc]⟩

theorem strContains_append {s frag : String} (post : String) (h : StrContains s frag) :
    StrContains (s ++ post) frag := by
  obtain ⟨p, q, rfl⟩ := h
  exact ⟨p, q ++ post, by rw [String.append_assoc (p ++ frag) q post]⟩

theorem strContains_self (p frag q : String) : StrContains (p ++ frag ++ q) frag :=
  ⟨p, q, rfl⟩

theorem strContains_head (frag q : String) : StrContains (frag ++ q) frag :=
  ⟨"", q, by rw [str_empty_append]⟩

theorem sqlClausesSchools_contains {l : List (String × (PyVal × PyVal))} {k : String}
    {o n : PyVal} (h : (k, (o, n)) ∈ l) :
    (k = "source_name" → StrContains (sqlClausesSchools l)
      ("  name='" ++ n.pyStr ++ "',\n  source_name='" ++ n.pyStr ++ "',\n")) ∧
    (k = "source_type" → StrContains (sqlClausesSchools l)
      ("  use_type='" ++ n.pyStr ++ "',\n")) ∧
    (k = "occupancy" → StrContains (sqlClausesSchools l)
      ("  estimated_occupancy='" ++ n.pyStr ++ "',\n")) := by
  induction l with
  | nil => simp at h
  | cons x rest ih =>
    rcases List.mem_cons.mp h with h1 | h1
    · cases h1
      refine ⟨?_, ?_, ?_⟩ <;> intro hk <;> subst hk <;>
        simp only [sqlClausesSchools] <;> norm_num <;> exact strContains_head _ _
    · obtain ⟨k0, o0, n0⟩ := x
      have ihr := ih h1
      exact ⟨fun hk => strContains_prepend _ (ihr.1 hk),
             fun hk => strContains_prepend _ (ihr.2.1 hk),
             fun hk => strContains_prepend _ (ihr.2.2 hk)⟩

theorem sqlClausesFacilities_contains {l : List (String × (PyVal × PyVal))} {k : String}
    {o n : PyVal} (h : (k, (o, n)) ∈ l) :
    (k = "source_name" → StrContains (sqlClausesFacilities l)
      ("name='" ++ n.pyStr ++ "',  source_name='" ++ n.pyStr ++ "', ")) ∧
    (k = "source_type" → StrContains (sqlClausesFacilities l)
      ("use_type='" ++ n.pyStr ++ "', ")) ∧
    (k = "occupancy" → StrContains (sqlClausesFacilities l)
      ("estimated_occupancy='" ++ n.pyStr ++ "', ")) := by
  induction l with
  | nil => simp at h
  | cons x rest ih =>
    rcases List.mem_cons.mp h with h1 | h1
    · cases h1
      refine ⟨?_, ?_, ?_⟩ <;> intro hk <;> subst hk <;>
        simp only [sqlClausesFacilities] <;> norm_num <;> exact strContains_head _ _
    · obtain ⟨k0, o0, n0⟩ := x
      have ihr := ih h1
      exact ⟨fun hk => strContains_prepend _ (ihr.1 hk),
             fun hk => strContains_prepend _ (ihr.2.1 hk),
             fun hk => strContains_prepend _ (ihr.2.2 hk)⟩

theorem sqlClausesSchools_unmapped (l : List (String × (PyVal × PyVal))) :
    sqlClausesSchools (l.filter fun kv => decide (kv.1 ∈ mappedSqlAttrs)) =
      sqlClausesSchools l := by
  induction l with
  | nil => rfl
  | cons x rest ih =>
    obtain ⟨k, o, n⟩ := x
    by_cases hk : k ∈ mappedSqlAttrs
    · simp only [List.filter_cons, decide_eq_true hk, if_pos rfl, sqlClausesSchools, ih]
    · have h1 : k ≠ "source_name" := fun e => hk (by simp [mappedSqlAttrs, e])
      have h2 : k ≠ "source_type" := fun e => hk (by simp [mappedSqlAttrs, e])
      have h3 : k ≠ "occupancy" := fun e => hk (by simp [mappedSqlAttrs, e])
      simp only [List.filter_cons, decide_eq_false hk, Bool.false_eq_true, if_false, ih]
      simp only [sqlClausesSchools, if_neg h1, if_neg h2, if_neg h3]
      rw [str_empty_append]

theorem sqlClausesFacilities_unmapped (l : List (String × (PyVal × PyVal))) :
    sqlClausesFacilities (l.filter fun kv => decide (kv.1 ∈ mappedSqlAttrs)) =
      sqlClausesFacilities l := by
  induction l with
  | nil => rfl
  | cons x rest ih =>
    obtain ⟨k, o, n⟩ := x
    by_cases hk : k ∈ mappedSqlAttrs
    · simp only [List.filter_cons, decide_eq_true hk, if_pos rfl, sqlClausesFacilities, ih]
    · have h1 : k ≠ "source_name" := fun e => hk (by simp [mappedSqlAttrs, e])
      have h2 : k ≠ "source_type" := fun e => hk (by simp [mappedSqlAttrs, e])
      have h3 : k ≠ "occupancy" := fun e => hk (by simp [mappedSqlAttrs, e])
      simp only [List.filter_cons, decide_eq_false hk, Bool.false_eq_true, if_false, ih]
      simp only [sqlClausesFacilities, if_neg h1, if_neg h2, if_neg h3]
      rw [str_empty_append]

theorem desc_reassoc (g keys : String) :
    g ++ ", Attrs: " ++ keys = (g ++ ", ") ++ "Attrs: " ++ keys := by
  rw [append_comma_attrs, ← String.append_assoc (g ++ ", ") "Attrs: " keys]

/-- C6: the generated SQL UPDATE statement sets `name` and
`source_name` when `source_name` changed, `use_type` when `source_type`
changed, `estimated_occupancy` when `occupancy` changed; attributes
outside this mapping contribute no SET clause (filtering the changed
set down to the mapped attributes leaves the clauses unchanged) though
their names still appear in the change description; and the statement
always closes with `last_modified=CURRENT_DATE` followed by a WHERE
predicate on both `facility_id` and `source_facility_id`.  Stated for
both `FacilitiesSchool.generate_update_sql` and
`Facility._generate_update_sql`. -/
theorem C6_sql_update_shape :
    (∀ (f : FacilitiesSchool) (c : Comparison) (k : String) (o n : PyVal),
      (k, (o, n)) ∈ c.changed_attrs →
      ∃ s, f.generate_update_sql c = some s ∧
        (k = "source_name" → StrContains s
          ("  name='" ++ n.pyStr ++ "',\n  source_name='" ++ n.pyStr ++ "',\n")) ∧
        (k = "source_type" → StrContains s ("  use_type='" ++ n.pyStr ++ "',\n")) ∧
        (k = "occupancy" → StrContains s ("  estimated_occupancy='" ++ n.pyStr ++ "',\n")) ∧
        (∃ p, s = p ++ "  last_modified=CURRENT_DATE\n" ++ "WHERE facility_id="
          ++ pyStrOptInt f.facilities_id ++ " AND source_facility_id="
          ++ toString f.source_id ++ ";")) ∧
    (∀ l, sqlClausesSchools (l.filter fun kv => decide (kv.1 ∈ mappedSqlAttrs)) =
      sqlClausesSchools l) ∧
    (∀ l, sqlClausesFacilities (l.filter fun kv => decide (kv.1 ∈ mappedSqlAttrs)) =
      sqlClausesFacilities l) ∧
    (∀ (f : FacilitiesSchool) (c : Comparison), c.changed_attrs ≠ [] →
      ∃ p, (f.update_from_comparison c).change_description =
        some (p ++ "Attrs: " ++ String.intercalate ", " (c.changed_attrs.map Prod.fst))) ∧
    (∀ (fac : Facility) (changed : List (String × (PyVal × PyVal))) (k : String)
       (o n : PyVal), (k, (o, n)) ∈ changed →
      (k = "source_name" → StrContains (fac.generate_update_sql_of changed)
        ("name='" ++ n.pyStr ++ "',  source_name='" ++ n.pyStr ++ "', ")) ∧
      (k = "source_type" → StrContains (fac.generate_update_sql_of changed)
        ("use_type='" ++ n.pyStr ++ "', ")) ∧
      (k = "occupancy" → StrContains (fac.generate_update_sql_of changed)
        ("estimated_occupancy='" ++ n.pyStr ++ "', ")) ∧
      (∃ p, fac.generate_update_sql_of changed = p ++ "last_modified=CURRENT_DATE "
        ++ "WHERE facility_id=" ++ pyStrOptInt fac.facilities_id
        ++ " AND source_facility_id=" ++ toString fac.source_id ++ ";")) := by
  refine ⟨?_, sqlClausesSchools_unmapped, sqlClausesFacilities_unmapped, ?_, ?_⟩
  · intro f c k o n hmem
    have hmem2 : (k, (o, n)) ∈ c.attrs := by
      have h9 := hmem
      simp only [Comparison.changed_attrs, changedOf, List.mem_filter] at h9
      exact h9.1
    have hattrs : c.attrs ≠ [] := List.ne_nil_of_mem hmem2
    rw [FacilitiesSchool.generate_update_sql, if_neg hattrs]
    have base := sqlClausesSchools_contains hmem
    refine ⟨_, rfl, ?_, ?_, ?_,
      ⟨"UPDATE facilities_lds.nz_facilities\nSET\n" ++ sqlClausesSchools c.changed_attrs,
        rfl⟩⟩
    · intro hk
      exact strContains_append _ (strContains_append _ (strContains_append _
        (strContains_append _ (strContains_append _ (strContains_append _
          (strContains_prepend _ (base.1 hk)))))))
    · intro hk
      exact strContains_append _ (strContains_append _ (strContains_append _
        (strContains_append _ (strContains_append _ (strContains_append _
          (strContains_prepend _ (base.2.1 hk)))))))
    · intro hk
      exact strContains_append _ (strContains_append _ (strContains_append _
        (strContains_append _ (strContains_append _ (strContains_append _
          (strContains_prepend _ (base.2.2 hk)))))))
  · intro f c hne
    simp only [FacilitiesSchool.update_from_comparison, if_neg hne]
    by_cases hw : c.is_geom_within_threshold = true
    · simp only [hw, if_true]
      by_cases ha : f.change_action = some ChangeAction.updateGeom
      · simp only [if_pos ha]
        exact ⟨pyStrOptStr f.change_description ++ ", ", by rw [desc_reassoc]⟩
      · simp only [if_neg ha]
        exact ⟨"", by rw [show ("" : String) ++ "Attrs: " = "Attrs: " from rfl]⟩
    · simp only [Bool.not_eq_true] at hw
      simp only [hw, Bool.false_eq_true, if_false, if_true, eq_self_iff_true]
      refine ⟨pyStrOptStr (some (match c.distance with
        | none => "Geom: missing"
        | some d => "Geom: " ++ fmtFixed1 d ++ "m")) ++ ", ", ?_⟩
      rw [desc_reassoc]
  · intro fac changed k o n hmem
    have base := sqlClausesFacilities_contains hmem
    rw [Facility.generate_update_sql_of]
    refine ⟨?_, ?_, ?_,
      ⟨"UPDATE facilities.facilities SET " ++ sqlClausesFacilities changed, rfl⟩⟩
    · intro hk
      exact strContains_append _ (strContains_append _ (strContains_append _
        (strContains_append _ (strContains_append _ (strContains_append _
          (strContains_prepend _ (base.1 hk)))))))
    · intro hk
      exact strContains_append _ (strContains_append _ (strContains_append _
        (strContains_append _ (strContains_append _ (strContains_append _
          (strContains_prepend _ (base.2.1 hk)))))))
    · intro hk
      exact strContains_append _ (strContains_append _ (strContains_append _
        (strContains_append _ (strContains_append _ (strContains_append _
          (strContains_prepend _ (base.2.2 hk)))))))

/-- A register school for the C6 witness. -/
def schoolW6 : FacilitiesSchool :=
  ⟨7, "Old Name", "Primary", some 0, none, none, none, none, none, some 4, none, none,
   none, none, none⟩

/-- A comparison with a changed mapped attribute (`source_name`) and a
changed unmapped attribute (`comments`), for the C6 witness. -/
def compW6 : Comparison :=
  ⟨some 0, [("source_name", (.vStr "Old Name", .vStr "New Name")),
            ("comments", (.vStr "a", .vStr "b"))]⟩

/-- Witness for C6: the theorem applied at a concrete school and
comparison with `source_name` changed. -/
theorem C6_witness :
    (∃ s, schoolW6.generate_update_sql compW6 = some s ∧
      ("source_name" = "source_name" → StrContains s
        ("  name='" ++ (PyVal.vStr "New Name").pyStr ++ "',\n  source_name='"
          ++ (PyVal.vStr "New Name").pyStr ++ "',\n")) ∧
      ("source_name" = "source_type" → StrContains s
        ("  use_type='" ++ (PyVal.vStr "New Name").pyStr ++ "',\n")) ∧
      ("source_name" = "occupancy" → StrContains s
        ("  estimated_occupancy='" ++ (PyVal.vStr "New Name").pyStr ++ "',\n")) ∧
      (∃ p, s = p ++ "  last_modified=CURRENT_DATE\n" ++ "WHERE facility_id="
        ++ pyStrOptInt schoolW6.facilities_id ++ " AND source_facility_id="
        ++ toString schoolW6.source_id ++ ";")) ∧
    (∃ p, (schoolW6.update_from_comparison compW6).change_description =
      some (p ++ "Attrs: "
        ++ String.intercalate ", " (compW6.changed_attrs.map Prod.fst))) :=
  ⟨C6_sql_update_shape.1 schoolW6 compW6 "source_name" (.vStr "Old Name")
      (.vStr "New Name") (by decide),
   C6_sql_update_shape.2.2.2.1 schoolW6 compW6 (by decide)⟩

/-! ## The C8 claim: failing fast on an invalid comparison attribute -/

theorem facilityGetAttr_eq_none_iff (f : Facility) (a : String) :
    f.getAttr a = none ↔ a ∉ facilityAttrNames := by
  constructor
  · intro hnone hmem
    simp only [facilityAttrNames, List.mem_cons, List.not_mem_nil, or_false] at hmem
    rcases hmem with rfl | rfl | rfl | rfl | rfl | rfl | rfl | rfl | rfl | rfl | rfl |
      rfl | rfl | rfl | rfl <;> simp [Facility.getAttr] at hnone
  · intro h
    have n1 : a ≠ "source_id" := fun e => h (by rw [e]; decide)
    have n2 : a ≠ "source_name" := fun e => h (by rw [e]; decide)
    have n3 : a ≠ "source_type" := fun e => h (by rw [e]; decide)
    have n4 : a ≠ "geom" := fun e => h (by rw [e]; decide)
    have n5 : a ≠ "occupancy" := fun e => h (by rw [e]; decide)
    have n6 : a ≠ "change_action" := fun e => h (by rw [e]; decide)
    have n7 : a ≠ "change_description" := fun e => h (by rw [e]; decide)
    have n8 : a ≠ "comments" := fun e => h (by rw [e]; decide)
    have n9 : a ≠ "geometry_change" := fun e => h (by rw [e]; decide)
    have n10 : a ≠ "facilities_id" := fun e => h (by rw [e]; decide)
    have n11 : a ≠ "facilities_name" := fun e => h (by rw [e]; decide)
    have n12 : a ≠ "facilities_use" := fun e => h (by rw [e]; decide)
    have n13 : a ≠ "facilities_subtype" := fun e => h (by rw [e]; decide)
    have n14 : a ≠ "last_modified" := fun e => h (by rw [e]; decide)
    have n15 : a ≠ "sql" := fun e => h (by rw [e]; decide)
    simp only [Facility.getAttr, if_neg n1, if_neg n2, if_neg n3, if_neg n4, if_neg n5,
      if_neg n6, if_neg n7, if_neg n8, if_neg n9, if_neg n10, if_neg n11, if_neg n12,
      if_neg n13, if_neg n14, if_neg n15]

theorem externalGetAttr_eq_none_iff (e : ExternalSource) (a : String) :
    e.getAttr a = none ↔ a ∉ externalAttrNames := by
  constructor
  · intro hnone hmem
    simp only [externalAttrNames, List.mem_cons, List.not_mem_nil, or_false] at hmem
    rcases hmem with rfl | rfl | rfl | rfl | rfl | rfl | rfl | rfl | rfl <;>
      simp [ExternalSource.getAttr] at hnone
  · intro h
    have n1 : a ≠ "source_id" := fun e2 => h (by rw [e2]; decide)
    have n2 : a ≠ "source_name" := fun e2 => h (by rw [e2]; decide)
    have n3 : a ≠ "source_type" := fun e2 => h (by rw [e2]; decide)
    have n4 : a ≠ "geom" := fun e2 => h (by rw [e2]; decide)
    have n5 : a ≠ "occupancy" := fun e2 => h (by rw [e2]; decide)
    have n6 : a ≠ "change_action" := fun e2 => h (by rw [e2]; decide)
    have n7 : a ≠ "change_description" := fun e2 => h (by rw [e2]; decide)
    have n8 : a ≠ "comments" := fun e2 => h (by rw [e2]; decide)
    have n9 : a ≠ "geometry_change" := fun e2 => h (by rw [e2]; decide)
    simp only [ExternalSource.getAttr, if_neg n1, if_neg n2, if_neg n3, if_neg n4,
      if_neg n5, if_neg n6, if_neg n7, if_neg n8, if_neg n9]

theorem buildAttrs_isOk_iff (f : Facility) (e : ExternalSource) (attrs : List String) :
    (buildAttrs f e attrs).isOk = false ↔
      ∃ a ∈ attrs, a ∉ facilityAttrNames ∨ a ∉ externalAttrNames := by
  induction attrs with
  | nil => simp [buildAttrs, Except.isOk, Except.toBool]
  | cons a rest ih =>
    cases hfa : f.getAttr a with
    | none =>
      simp only [buildAttrs, hfa, List.mem_cons]
      constructor
      · intro _
        exact ⟨a, Or.inl rfl, Or.inl ((facilityGetAttr_eq_none_iff f a).mp hfa)⟩
      · intro _
        simp [Except.isOk, Except.toBool]
    | some va =>
      have hafac : a ∈ facilityAttrNames := by
        by_contra hcon
        rw [← facilityGetAttr_eq_none_iff f a] at hcon
        rw [hcon] at hfa
        cases hfa
      cases hea : e.getAttr a with
      | none =>
        simp only [buildAttrs, hfa, hea, List.mem_cons]
        constructor
        · intro _
          exact ⟨a, Or.inl rfl, Or.inr ((externalGetAttr_eq_none_iff e a).mp hea)⟩
        · intro _
          simp [Except.isOk, Except.toBool]
      | some vb =>
        have haext : a ∈ externalAttrNames := by
          by_contra hcon
          rw [← externalGetAttr_eq_none_iff e a] at hcon
          rw [hcon] at hea
          cases hea
        simp only [buildAttrs, hfa, hea, List.mem_cons]
        have hmap : ((buildAttrs f e rest).map
            (fun l => (a, (va, vb)) :: l)).isOk = (buildAttrs f e rest).isOk := by
          cases buildAttrs f e rest <;> simp [Except.map, Except.isOk, Except.toBool]
        rw [hmap, ih]
        constructor
        · rintro ⟨x, hx, hbad⟩
          exact ⟨x, Or.inr hx, hbad⟩
        · rintro ⟨x, hx | hx, hbad⟩
          · subst hx
            rcases hbad with hbad | hbad
            · exact absurd hafac hbad
            · exact absurd haext hbad
          · exact ⟨x, hx, hbad⟩

theorem update_from_other_snd_none_iff (fac : Facility) (ext : ExternalSource)
    (attrs : List String) :
    (fac.update_from_other ext attrs).2 = none ↔
      (buildAttrs (fac.geomPhase ext) ext attrs).isOk = true := by
  rw [Facility.update_from_other]
  cases hb : buildAttrs (fac.geomPhase ext) ext attrs with
  | error e => simp [Except.isOk, Except.toBool]
  | ok al =>
    simp only [Except.isOk, Except.toBool]
    split_ifs <;> simp

theorem geomPhase_sql (fac : Facility) (ext : ExternalSource) :
    (fac.geomPhase ext).sql = fac.sql := by
  rw [Facility.geomPhase]
  cases facilityExtDistance fac ext with
  | none => rfl
  | some d => by_cases h : DISTANCE_THRESHOLD < d <;> simp [h]

/-- C8 (amended): requesting a comparison on an attribute name not
present on both record types fails — `Facility.update_from_other`
raises exactly when some requested name is not a field of both records,
never silently skipping it, and `parse_comparison_arg` rejects any
invalid name at the CLI boundary before any classification, so
CLI-validated attribute sets never raise during classification.  On the
direct failing call the record's `sql` is untouched, but (contrary to
the claim as stated) the geometry comparison has already run, so
`change_action`/`change_description` may already have been mutated when
the error surfaces. -/
theorem C8_invalid_attr_fails :
    (∀ (fac : Facility) (ext : ExternalSource) (attrs : List String),
      (fac.update_from_other ext attrs).2.isSome = true ↔
        ∃ a ∈ attrs, a ∉ facilityAttrNames ∨ a ∉ externalAttrNames) ∧
    (∀ (fac : Facility) (ext : ExternalSource) (attrs : List String),
      (fac.update_from_other ext attrs).2.isSome = true →
      (fac.update_from_other ext attrs).1.sql = fac.sql) ∧
    (∀ (s : String) (attrs : List String), parse_comparison_arg s = .ok attrs →
      ∀ a ∈ attrs, a ∈ comparableAttrsSorted) ∧
    (∀ a ∈ comparableAttrsSorted, a ∈ facilityAttrNames ∧ a ∈ externalAttrNames) ∧
    (∀ (s : String) (attrs : List String), parse_comparison_arg s = .ok attrs →
      ∀ (fac : Facility) (ext : ExternalSource),
        (fac.update_from_other ext attrs).2 = none) := by
  have hparse : ∀ (s : String) (attrs : List String), parse_comparison_arg s = .ok attrs →
      ∀ a ∈ attrs, a ∈ comparableAttrsSorted := by
    intro s attrs hok a ha
    rw [parse_comparison_arg] at hok
    rcases hsplit : (pySplitComma s).filter
        (fun p => decide (p ∉ comparableAttrsSorted)) with _ | ⟨x, xs⟩
    · rw [hsplit] at hok
      split_ifs at hok with hv
      cases hok
      have := List.of_mem_filter ha
      exact of_decide_eq_true this
    · rcases xs with _ | ⟨y, ys⟩ <;> rw [hsplit] at hok <;> cases hok
  have hcomp : ∀ a ∈ comparableAttrsSorted, a ∈ facilityAttrNames ∧ a ∈ externalAttrNames := by
    decide
  have hiff : ∀ (fac : Facility) (ext : ExternalSource) (attrs : List String),
      (fac.update_from_other ext attrs).2.isSome = true ↔
        ∃ a ∈ attrs, a ∉ facilityAttrNames ∨ a ∉ externalAttrNames := by
    intro fac ext attrs
    rw [← buildAttrs_isOk_iff (fac.geomPhase ext) ext attrs]
    rw [show ((fac.update_from_other ext attrs).2.isSome = true ↔
        ¬((fac.update_from_other ext attrs).2 = none)) by
      cases (fac.update_from_other ext attrs).2 <;> simp]
    rw [update_from_other_snd_none_iff]
    cases buildAttrs (fac.geomPhase ext) ext attrs <;>
      simp [Except.isOk, Except.toBool]
  refine ⟨hiff, ?_, hparse, hcomp, ?_⟩
  · intro fac ext attrs herr
    rw [Facility.update_from_other]
    cases hb : buildAttrs (fac.geomPhase ext) ext attrs with
    | error e => exact geomPhase_sql fac ext
    | ok al =>
      exfalso
      rw [show (fac.update_from_other ext attrs).2 = none from
        (update_from_other_snd_none_iff fac ext attrs).mpr (by rw [hb]; rfl)] at herr
      cases herr
  · intro s attrs hok fac ext
    rw [update_from_other_snd_none_iff]
    by_contra hnotok
    have hfalse : (buildAttrs (fac.geomPhase ext) ext attrs).isOk = false := by
      cases hx : (buildAttrs (fac.geomPhase ext) ext attrs).isOk
      · rfl
      · exact absurd hx hnotok
    rw [buildAttrs_isOk_iff] at hfalse
    obtain ⟨a, ha, hbad⟩ := hfalse
    have hc := hcomp a (hparse s attrs hok a ha)
    rcases hbad with hbad | hbad
    · exact hbad hc.1
    · exact hbad hc.2

/-- A register facility with no classification yet, for the C8
counterexample. -/
def facC8 : Facility :=
  ⟨9, "Hosp", "Hospital", 0, none, none, none, none, none, some 5, none, none, none,
   none, none⟩

/-- An external record with a missing geometry, for the C8
counterexample. -/
def extC8 : ExternalSource := ⟨9, "Hosp", "Hospital", none, none, none, none, none, none⟩

/-- C8 (counterexample): comparing on `"address"` (not a `Facility`
field) raises, but by the time the failure surfaces the geometry
comparison has already set `change_action` and `change_description` on
the register record — the claim's "no record's change_action ... has
been mutated by the time the failure surfaces" is false. -/
theorem C8_counterexample :
    (facC8.update_from_other extC8 ["address"]).2.isSome = true ∧
    facC8.change_action = none ∧
    (facC8.update_from_other extC8 ["address"]).1.change_action = some .updateGeom ∧
    (facC8.update_from_other extC8 ["address"]).1.change_description =
      some "Geom: missing" := by
  refine ⟨by decide, rfl, by decide, by decide⟩

/-- Witness for C8: the amended theorem applied at concrete inputs —
the CLI parser accepts `"source_name,occupancy"`, every parsed name is
comparable, and classification with the parsed set never raises. -/
theorem C8_witness :
    (∀ a ∈ ["source_name", "occupancy"], a ∈ comparableAttrsSorted) ∧
    (facC8.update_from_other
      ⟨9, "Hosp", "Hospital", some 1, none, none, none, none, none⟩
      ["source_name", "occupancy"]).2 = none :=
  ⟨C8_invalid_attr_fails.2.2.1 "source_name,occupancy" ["source_name", "occupancy"] (by rfl),
   C8_invalid_attr_fails.2.2.2.2 "source_name,occupancy" ["source_name", "occupancy"] (by rfl)
     facC8 ⟨9, "Hosp", "Hospital", some 1, none, none, none, none, none⟩⟩

/-! ## The C2 claim: the partition produced by classification -/

theorem update_ok_of_valid {attrs : List String}
    (hvalid : ∀ a ∈ attrs, a ∈ facilityAttrNames ∧ a ∈ externalAttrNames)
    (fac : Facility) (ext : ExternalSource) :
    (fac.update_from_other ext attrs).2 = none := by
  rw [update_from_other_snd_none_iff]
  by_contra hnotok
  have hfalse : (buildAttrs (fac.geomPhase ext) ext attrs).isOk = false := by
    cases hx : (buildAttrs (fac.geomPhase ext) ext attrs).isOk
    · rfl
    · exact absurd hx hnotok
  rw [buildAttrs_isOk_iff] at hfalse
  obtain ⟨a, ha, hbad⟩ := hfalse
  rcases hbad with hbad | hbad
  · exact hbad (hvalid a ha).1
  · exact hbad (hvalid a ha).2

theorem geomPhase_action (fac : Facility) (ext : ExternalSource)
    (hf : fac.change_action = none) :
    (fac.geomPhase ext).change_action = none ∨
      (fac.geomPhase ext).change_action = some .updateGeom := by
  rw [Facility.geomPhase]
  cases facilityExtDistance fac ext with
  | none => right; rfl
  | some d =>
    by_cases h : DISTANCE_THRESHOLD < d
    · right; simp [h]
    · left; simp [h, hf]

theorem update_from_other_action_cases (fac : Facility) (ext : ExternalSource)
    (attrs : List String) (hf : fac.change_action = none) :
    (fac.update_from_other ext attrs).1.change_action = none ∨
    (fac.update_from_other ext attrs).1.change_action = some .updateGeom ∨
    (fac.update_from_other ext attrs).1.change_action = some .updateAttr ∨
    (fac.update_from_other ext attrs).1.change_action = some .updateGeomAttr := by
  have hphase := geomPhase_action fac ext hf
  rw [Facility.update_from_other]
  cases hb : buildAttrs (fac.geomPhase ext) ext attrs with
  | error e =>
    rcases hphase with h | h
    · left; exact h
    · right; left; exact h
  | ok al =>
    by_cases hc : changedOf al = []
    · simp only [if_pos hc]
      rcases hphase with h | h
      · left; exact h
      · right; left; exact h
    · simp only [if_neg hc]
      by_cases hesc : (fac.geomPhase ext).change_action = some ChangeAction.updateGeom
      · simp only [if_pos hesc]
        right; right; right; trivial
      · simp only [if_neg hesc]
        right; right; left; trivial

/-- The per-record action of the first pass of `compare_facilities`
(facilities.py:227-232). -/
def registerStep (externals : List (ℤ × ExternalSource)) (attrs : List String)
    (p : ℤ × Facility) : ℤ × Facility :=
  match aget externals p.1 with
  | some ext =>
    if ext.change_action ≠ some .ignore then (p.1, (p.2.update_from_other ext attrs).1)
    else (p.1, { p.2 with change_action := some .remove })
  | none => (p.1, { p.2 with change_action := some .remove })

theorem registerStepE_eq {attrs : List String}
    (hvalid : ∀ a ∈ attrs, a ∈ facilityAttrNames ∧ a ∈ externalAttrNames)
    (exts : List (ℤ × ExternalSource)) (p : ℤ × Facility) :
    registerStepE exts attrs p = .ok (registerStep exts attrs p) := by
  obtain ⟨fid, f⟩ := p
  cases hg : aget exts fid with
  | none => simp [registerStepE, registerStep, hg]
  | some ext =>
    by_cases hi : ext.change_action ≠ some ChangeAction.ignore
    · have hupd : (f.update_from_other ext attrs).2 = none := update_ok_of_valid hvalid f ext
      have hsplit : f.update_from_other ext attrs =
          ((f.update_from_other ext attrs).1, none) := by rw [← hupd]
      simp only [registerStepE, registerStep, hg]
      rw [if_pos hi, if_pos hi, hsplit]
    · simp only [registerStepE, registerStep, hg]
      rw [if_neg hi, if_neg hi]

theorem classifyRegister_eq_map {attrs : List String}
    (hvalid : ∀ a ∈ attrs, a ∈ facilityAttrNames ∧ a ∈ externalAttrNames)
    (exts : List (ℤ × ExternalSource)) (facs : List (ℤ × Facility)) :
    classifyRegister exts attrs facs = .ok (facs.map (registerStep exts attrs)) := by
  induction facs with
  | nil => rfl
  | cons p rest ih =>
    simp only [classifyRegister, registerStepE_eq hvalid, ih, Except.map, List.map_cons]

theorem compare_facilities_eq {attrs : List String}
    (hvalid : ∀ a ∈ attrs, a ∈ facilityAttrNames ∧ a ∈ externalAttrNames)
    (facs : List (ℤ × Facility)) (exts : List (ℤ × ExternalSource)) :
    compare_facilities facs exts attrs =
      .ok (facs.map (registerStep exts attrs),
           exts.map fun p =>
             (p.1, if p.2.change_action ≠ some .ignore ∧ aget facs p.1 = none then
               { p.2 with change_action := some .add }
             else p.2)) := by
  rw [compare_facilities, classifyRegister_eq_map hvalid]

theorem registerStep_fst (exts : List (ℤ × ExternalSource)) (attrs : List String)
    (p : ℤ × Facility) : (registerStep exts attrs p).1 = p.1 := by
  rw [registerStep]
  cases aget exts p.1 with
  | none => rfl
  | some ext => by_cases h : ext.change_action ≠ some ChangeAction.ignore <;> simp [h]

theorem aget_map_kval {κ α β : Type} [DecidableEq κ] (g : κ → α → β)
    (l : List (κ × α)) (k : κ) :
    aget (l.map fun p => (p.1, g p.1 p.2)) k = (aget l k).map (g k) := by
  induction l with
  | nil => rfl
  | cons p rest ih =>
    obtain ⟨k0, v⟩ := p
    by_cases h : k0 = k
    · subst h; simp [aget]
    · simp [aget, h, ih]

theorem aset_map_fst {κ α : Type} [DecidableEq κ] (l : List (κ × α)) (k : κ) (v : α) :
    (aset l k v).map Prod.fst = l.map Prod.fst := by
  induction l with
  | nil => rfl
  | cons p rest ih =>
    obtain ⟨k0, v0⟩ := p
    by_cases h : k0 = k
    · subst h; simp [aset]
    · simp [aset, h, ih]

theorem aget_aset_self {κ α : Type} [DecidableEq κ] (l : List (κ × α)) (k : κ) (v : α) :
    aget (aset l k v) k = (aget l k).map (fun _ => v) := by
  induction l with
  | nil => rfl
  | cons p rest ih =>
    obtain ⟨k0, v0⟩ := p
    by_cases h : k0 = k
    · subst h; simp [aset, aget]
    · simp [aset, aget, h, ih]

theorem aget_aset_ne {κ α : Type} [DecidableEq κ] (l : List (κ × α)) (k k2 : κ) (v : α)
    (h : k ≠ k2) : aget (aset l k v) k2 = aget l k2 := by
  induction l with
  | nil => rfl
  | cons p rest ih =>
    obtain ⟨k0, v0⟩ := p
    by_cases h0 : k0 = k
    · subst h0; simp [aset, aget, h, ih]
    · by_cases h2 : k0 = k2
      · subst h2; simp [aset, aget, h0]
      · simp [aset, aget, h0, h2, ih]

theorem hpiLoop_fst_keys (hpis : List (String × HpiRow)) (facs : List (String × FacRow)) :
    ((hpiLoop facs hpis).1).map Prod.fst = facs.map Prod.fst := by
  induction hpis generalizing facs with
  | nil => rfl
  | cons p rest ih =>
    obtain ⟨hid, h⟩ := p
    rw [hpiLoop]
    cases hg : aget facs hid with
    | none => exact ih facs
    | some f => rw [ih (aset facs hid (updateFacRowFromHpi f h)), aset_map_fst]

theorem hpiLoop_get (hpis : List (String × HpiRow))
    (hn : (hpis.map Prod.fst).Nodup) (facs : List (String × FacRow)) (fid : String) :
    aget (hpiLoop facs hpis).1 fid =
      match aget hpis fid with
      | none => aget facs fid
      | some h => (aget facs fid).map fun f => updateFacRowFromHpi f h := by
  induction hpis generalizing facs with
  | nil => rfl
  | cons p rest ih =>
    obtain ⟨hid, h0⟩ := p
    rw [List.map_cons, List.nodup_cons] at hn
    rw [hpiLoop]
    by_cases hk : hid = fid
    · subst hk
      have hrest : aget rest hid = none := by
        rw [aget_eq_none_iff]
        exact hn.1
      cases hg : aget facs hid with
      | none =>
        rw [ih hn.2 facs]
        simp [aget, hrest, hg]
      | some f =>
        rw [ih hn.2 (aset facs hid (updateFacRowFromHpi f h0))]
        simp [aget, hrest, hg, aget_aset_self]
    · cases hg : aget facs hid with
      | none =>
        rw [ih hn.2 facs]
        simp [aget, hk]
      | some f =>
        rw [ih hn.2 (aset facs hid (updateFacRowFromHpi f h0))]
        simp only [aget, if_neg hk]
        cases aget rest fid with
        | none => simp [aget_aset_ne _ _ _ _ hk]
        | some h2 => simp [aget_aset_ne _ _ _ _ hk]

theorem hpiLoop_get_none (hpis : List (String × HpiRow))
    (hn : (hpis.map Prod.fst).Nodup) (facs : List (String × FacRow)) (fid : String)
    (h : aget hpis fid = none) :
    aget (hpiLoop facs hpis).1 fid = aget facs fid := by
  rw [hpiLoop_get hpis hn facs fid, h]

theorem hpiLoop_get_some (hpis : List (String × HpiRow))
    (hn : (hpis.map Prod.fst).Nodup) (facs : List (String × FacRow)) (fid : String)
    (h0 : HpiRow) (h : aget hpis fid = some h0) :
    aget (hpiLoop facs hpis).1 fid =
      (aget facs fid).map fun f => updateFacRowFromHpi f h0 := by
  rw [hpiLoop_get hpis hn facs fid, h]

theorem hpiLoop_mem_new (hpis : List (String × HpiRow)) (facs : List (String × FacRow))
    (hid : String) (h : HpiRow) :
    ((hid, h) ∈ (hpiLoop facs hpis).2.1 ↔
      (hid, h) ∈ hpis ∧ aget facs hid = none) := by
  induction hpis generalizing facs with
  | nil => simp [hpiLoop]
  | cons p rest ih =>
    obtain ⟨hid0, h0⟩ := p
    rw [hpiLoop]
    cases hg : aget facs hid0 with
    | none =>
      simp only [List.mem_cons, ih facs]
      constructor
      · rintro (he | ⟨hm, hget⟩)
        · cases he
          exact ⟨Or.inl rfl, hg⟩
        · exact ⟨Or.inr hm, hget⟩
      · rintro ⟨he | hm, hget⟩
        · cases he
          exact Or.inl rfl
        · exact Or.inr ⟨hm, hget⟩
    | some f =>
      rw [ih (aset facs hid0 (updateFacRowFromHpi f h0))]
      constructor
      · rintro ⟨hm, hget⟩
        refine ⟨List.mem_cons_of_mem _ hm, ?_⟩
        by_cases hk : hid0 = hid
        · subst hk
          rw [aget_aset_self, hg] at hget
          cases hget
        · rw [aget_aset_ne _ _ _ _ hk] at hget
          exact hget
      · rintro ⟨hm, hget⟩
        rcases List.mem_cons.mp hm with he | hm2
        · cases he
          rw [hget] at hg
          cases hg
        · refine ⟨hm2, ?_⟩
          by_cases hk : hid0 = hid
          · subst hk
            rw [hget] at hg
            cases hg
          · rw [aget_aset_ne _ _ _ _ hk]
            exact hget

theorem hpiLoop_mem_matched (hpis : List (String × HpiRow))
    (facs : List (String × FacRow)) (hid : String) (h : HpiRow) :
    ((hid, h) ∈ (hpiLoop facs hpis).2.2 ↔
      (hid, h) ∈ hpis ∧ aget facs hid ≠ none) := by
  induction hpis generalizing facs with
  | nil => simp [hpiLoop]
  | cons p rest ih =>
    obtain ⟨hid0, h0⟩ := p
    rw [hpiLoop]
    cases hg : aget facs hid0 with
    | none =>
      rw [ih facs]
      constructor
      · rintro ⟨hm, hget⟩
        exact ⟨List.mem_cons_of_mem _ hm, hget⟩
      · rintro ⟨hm, hget⟩
        rcases List.mem_cons.mp hm with he | hm2
        · cases he
          exact absurd hg hget
        · exact ⟨hm2, hget⟩
    | some f =>
      simp only [List.mem_cons, ih (aset facs hid0 (updateFacRowFromHpi f h0))]
      constructor
      · rintro (he | ⟨hm, hget⟩)
        · cases he
          exact ⟨Or.inl rfl, by rw [hg]; exact fun hx => Option.noConfusion hx⟩
        · refine ⟨Or.inr hm, ?_⟩
          by_cases hk : hid0 = hid
          · subst hk
            rw [hg]
            exact fun hx => Option.noConfusion hx
          · rw [aget_aset_ne _ _ _ _ hk] at hget
            exact hget
      · rintro ⟨he | hm, hget⟩
        · cases he
          exact Or.inl rfl
        · refine Or.inr ⟨hm, ?_⟩
          by_cases hk : hid0 = hid
          · subst hk
            rw [aget_aset_self, hg]
            exact fun hx => Option.noConfusion hx
          · rw [aget_aset_ne _ _ _ _ hk]
            exact hget

theorem updateFacRow_action_cases (f : FacRow) (h : HpiRow)
    (hf : f.change_action = none) :
    (updateFacRowFromHpi f h).change_action = none ∨
    (updateFacRowFromHpi f h).change_action = some .updateGeom ∨
    (updateFacRowFromHpi f h).change_action = some .updateAttr ∨
    (updateFacRowFromHpi f h).change_action = some .updateGeomAttr := by
  cases hgeo : h.geometry with
  | none =>
    simp only [updateFacRowFromHpi, hgeo]
    split_ifs <;> simp
  | some g =>
    simp only [updateFacRowFromHpi, hgeo]
    split_ifs <;> simp [hf]

/-- C2: after classification, every register id is accounted for in
exactly one of matched-and-annotated / removed — removed exactly when
its id is absent from the external map or its external counterpart is
flagged ignore — every non-ignored external id in exactly one of
matched / added, and an ignored external record is returned untouched,
never as an addition.  Stated for `compare_facilities` (with the ignore
rule) and for `compare_facilities_to_hpi` (whose outputs are the
separate `new` / `matched` collections and which has no ignore flag). -/
theorem C2_classification_partition :
    (∀ (facs : List (ℤ × Facility)) (exts : List (ℤ × ExternalSource)) (attrs : List String)
       (out : List (ℤ × Facility) × List (ℤ × ExternalSource)),
      (facs.map Prod.fst).Nodup → (exts.map Prod.fst).Nodup →
      (∀ p ∈ facs, (p.2 : Facility).change_action = none) →
      (∀ p ∈ exts, (p.2 : ExternalSource).change_action = none ∨
        (p.2 : ExternalSource).change_action = some .ignore) →
      (∀ a ∈ attrs, a ∈ facilityAttrNames ∧ a ∈ externalAttrNames) →
      compare_facilities facs exts attrs = .ok out →
      (out.1.map Prod.fst = facs.map Prod.fst ∧ out.2.map Prod.fst = exts.map Prod.fst) ∧
      (∀ fid f2, (fid, f2) ∈ out.1 → ∃ f, (fid, f) ∈ facs ∧
        (f2.change_action = some .remove ↔
          (aget exts fid = none ∨
            ∃ e, aget exts fid = some e ∧ e.change_action = some .ignore)) ∧
        (∀ e, aget exts fid = some e → e.change_action ≠ some .ignore →
          f2 = (f.update_from_other e attrs).1 ∧ f2.change_action ≠ some .remove ∧
          f2.change_action ≠ some .add)) ∧
      (∀ eid e2, (eid, e2) ∈ out.2 → ∃ e, (eid, e) ∈ exts ∧
        (e.change_action = some .ignore → e2 = e ∧ e2.change_action ≠ some .add) ∧
        (e.change_action = none →
          (e2.change_action = some .add ↔ aget facs eid = none) ∧
          (aget facs eid ≠ none → e2 = e)))) ∧
    (∀ (facilities : List (String × FacRow)) (hpi : List (String × HpiRow)),
      (facilities.map Prod.fst).Nodup → (hpi.map Prod.fst).Nodup →
      ((compare_facilities_to_hpi facilities hpi).1.map Prod.fst =
        facilities.map Prod.fst) ∧
      (∀ fid f2, (fid, f2) ∈ (compare_facilities_to_hpi facilities hpi).1 →
        (f2.change_action = some .remove ↔ aget hpi fid = none)) ∧
      (∀ hid h, (hid, h) ∈ hpi →
        (((hid, h) ∈ (compare_facilities_to_hpi facilities hpi).2.1) ↔
          aget facilities hid = none) ∧
        (((hid, h) ∈ (compare_facilities_to_hpi facilities hpi).2.2) ↔
          aget facilities hid ≠ none)) ∧
      (∀ hid h, ((hid, h) ∈ (compare_facilities_to_hpi facilities hpi).2.1 ∨
        (hid, h) ∈ (compare_facilities_to_hpi facilities hpi).2.2) → (hid, h) ∈ hpi)) := by
  constructor
  · intro facs exts attrs out hnF hnE hfreshF hfreshE hvalid hrun
    rw [compare_facilities_eq hvalid] at hrun
    injection hrun with hout
    subst hout
    refine ⟨⟨?_, ?_⟩, ?_, ?_⟩
    · rw [List.map_map]
      exact List.map_congr_left fun p _ => registerStep_fst exts attrs p
    · rw [List.map_map]
      exact List.map_congr_left fun p _ => rfl
    · intro fid f2 hmem
      obtain ⟨p, hp, hstep⟩ := List.mem_map.mp hmem
      have hfid : p.1 = fid := by rw [← registerStep_fst exts attrs p, hstep]
      have hpmem : (fid, p.2) ∈ facs := by
        rw [← hfid, Prod.mk.eta]
        exact hp
      refine ⟨p.2, hpmem, ?_⟩
      rw [registerStep, hfid] at hstep
      cases hg : aget exts fid with
      | none =>
        simp only [hg] at hstep
        injection hstep with h1 h2
        subst h2
        refine ⟨⟨fun _ => Or.inl rfl, fun _ => rfl⟩, ?_⟩
        intro e he
        exact absurd he (by simp)
      | some e0 =>
        by_cases hie : e0.change_action = some ChangeAction.ignore
        · have hnot : ¬(e0.change_action ≠ some ChangeAction.ignore) := by simp [hie]
          simp only [hg, if_neg hnot] at hstep
          injection hstep with h1 h2
          subst h2
          refine ⟨⟨fun _ => Or.inr ⟨e0, rfl, hie⟩, fun _ => rfl⟩, ?_⟩
          intro e he hne
          injection he with he2
          subst he2
          exact absurd hie hne
        · have hi : e0.change_action ≠ some ChangeAction.ignore := hie
          simp only [hg, if_pos hi] at hstep
          injection hstep with h1 h2
          subst h2
          have hfnone : p.2.change_action = none := hfreshF p hp
          have hcases := update_from_other_action_cases p.2 e0 attrs hfnone
          have hnr : (p.2.update_from_other e0 attrs).1.change_action ≠
              some ChangeAction.remove := by
            rcases hcases with h | h | h | h <;> rw [h] <;> simp
          have hna : (p.2.update_from_other e0 attrs).1.change_action ≠
              some ChangeAction.add := by
            rcases hcases with h | h | h | h <;> rw [h] <;> simp
          refine ⟨⟨fun hx => absurd hx hnr, fun hx => ?_⟩, ?_⟩
          · rcases hx with hx | ⟨e2, he2, hie2⟩
            · exact absurd hx (by simp)
            · injection he2 with he3
              subst he3
              exact absurd hie2 hi
          · intro e he hne
            injection he with he3
            subst he3
            exact ⟨rfl, hnr, hna⟩
    · intro eid e2 hmem
      obtain ⟨p, hp, hstep⟩ := List.mem_map.mp hmem
      injection hstep with h1 h2
      have hpm : (eid, p.2) ∈ exts := by
        rw [← h1, Prod.mk.eta]
        exact hp
      refine ⟨p.2, hpm, ?_, ?_⟩
      · intro hie
        have hnot : ¬(p.2.change_action ≠ some ChangeAction.ignore ∧
            aget facs p.1 = none) := by simp [hie]
        rw [if_neg hnot] at h2
        subst h2
        exact ⟨rfl, by simp [hie]⟩
      · intro hnone
        by_cases hga : aget facs eid = none
        · have hcond : p.2.change_action ≠ some ChangeAction.ignore ∧
              aget facs p.1 = none := ⟨by simp [hnone], by rw [h1]; exact hga⟩
          rw [if_pos hcond] at h2
          subst h2
          exact ⟨⟨fun _ => hga, fun _ => rfl⟩, fun hx => absurd hga hx⟩
        · have hcond : ¬(p.2.change_action ≠ some ChangeAction.ignore ∧
              aget facs p.1 = none) := by
            rintro ⟨_, hh⟩
            rw [h1] at hh
            exact hga hh
          rw [if_neg hcond] at h2
          subst h2
          refine ⟨⟨fun hx => ?_, fun hx => absurd hx hga⟩, fun _ => rfl⟩
          rw [hnone] at hx
          exact absurd hx (by simp)
  · intro facilities hpi hnF hnH
    have hkeys0 : (facilities.map fun p =>
        (p.1, { p.2 with change_action := none, change_description := none })).map Prod.fst =
        facilities.map Prod.fst := by
      rw [List.map_map]
      exact List.map_congr_left fun p _ => rfl
    have hget0 : ∀ fid, aget (facilities.map fun p =>
        (p.1, { p.2 with change_action := none, change_description := none })) fid =
        (aget facilities fid).map
          (fun v => { v with change_action := none, change_description := none }) :=
      fun fid => aget_map_kval
        (fun _ v => { v with change_action := none, change_description := none })
        facilities fid
    refine ⟨?_, ?_, ?_, ?_⟩
    · rw [compare_facilities_to_hpi, List.map_map]
      rw [show (Prod.fst ∘ fun p : String × FacRow =>
        (p.1, if aget hpi p.1 = none then
          { p.2 with change_action := some ChangeAction.remove } else p.2)) = Prod.fst from
        rfl]
      rw [show (List.map Prod.fst (hpiLoop (facilities.map fun p =>
          (p.1, { p.2 with change_action := none, change_description := none })) hpi).1) =
          _ from hpiLoop_fst_keys hpi _]
      exact hkeys0
    · intro fid f2 hmem
      have hkeysu : ((compare_facilities_to_hpi facilities hpi).1.map Prod.fst).Nodup := by
        rw [compare_facilities_to_hpi, List.map_map]
        rw [show (Prod.fst ∘ fun p : String × FacRow =>
          (p.1, if aget hpi p.1 = none then
            { p.2 with change_action := some ChangeAction.remove } else p.2)) = Prod.fst from
          rfl]
        rw [show (List.map Prod.fst (hpiLoop (facilities.map fun p =>
            (p.1, { p.2 with change_action := none, change_description := none })) hpi).1) =
            _ from hpiLoop_fst_keys hpi _]
        rw [hkeys0]
        exact hnF
      have hga : aget (compare_facilities_to_hpi facilities hpi).1 fid = some f2 :=
        aget_of_mem hkeysu hmem
      rw [compare_facilities_to_hpi] at hga
      have hrw := aget_map_kval (fun k (v : FacRow) =>
        if aget hpi k = none then { v with change_action := some ChangeAction.remove }
        else v)
        ((hpiLoop (facilities.map fun p =>
          (p.1, { p.2 with change_action := none, change_description := none })) hpi).1) fid
      rw [hrw] at hga
      cases hh : aget hpi fid with
      | none =>
        rw [hpiLoop_get_none hpi hnH _ fid hh, hget0] at hga
        rcases hmap : aget facilities fid with _ | f0
        · rw [hmap] at hga
          simp at hga
        · rw [hmap] at hga
          simp [hh] at hga
          subst hga
          simp [hh]
      | some h =>
        rw [hpiLoop_get_some hpi hnH _ fid h hh, hget0] at hga
        rcases hmap : aget facilities fid with _ | f0
        · rw [hmap] at hga
          simp at hga
        · rw [hmap] at hga
          simp [hh] at hga
          subst hga
          have hcases := updateFacRow_action_cases
            { f0 with change_action := none, change_description := none } h rfl
          constructor
          · intro hx
            rcases hcases with hc | hc | hc | hc <;> rw [hc] at hx <;> simp at hx
          · intro hx
            exact absurd hx (by simp)
    · intro hid h hmem
      constructor
      · rw [compare_facilities_to_hpi]
        rw [hpiLoop_mem_new hpi _ hid h]
        constructor
        · rintro ⟨_, hget⟩
          rw [hget0] at hget
          exact Option.map_eq_none.mp hget
        · intro hget
          refine ⟨hmem, ?_⟩
          rw [hget0, hget]
          rfl
      · rw [compare_facilities_to_hpi]
        rw [hpiLoop_mem_matched hpi _ hid h]
        constructor
        · rintro ⟨_, hget⟩
          intro hcon
          rw [hget0, hcon] at hget
          exact hget rfl
        · intro hget
          refine ⟨hmem, ?_⟩
          rw [hget0]
          intro hcon
          exact hget (Option.map_eq_none.mp hcon)
    · intro hid h hmem
      rcases hmem with hmem | hmem
      · rw [compare_facilities_to_hpi, hpiLoop_mem_new hpi _ hid h] at hmem
        exact hmem.1
      · rw [compare_facilities_to_hpi, hpiLoop_mem_matched hpi _ hid h] at hmem
        exact hmem.1

/-- A register facility whose id has no external match, for the C2
witness. -/
def facC2 : Facility :=
  ⟨1, "F", "T", 0, none, none, none, none, none, some 11, none, none, none, none, none⟩

/-- An unmatched, non-ignored external record, for the C2 witness. -/
def extC2n : ExternalSource := ⟨2, "E2", "T", some 0, none, none, none, none, none⟩

/-- An external record pre-tagged ignore, for the C2 witness. -/
def extC2i : ExternalSource :=
  ⟨3, "E3", "T", some 0, none, some .ignore, none, none, none⟩

/-- The register map of the C2 witness. -/
def facsC2 : List (ℤ × Facility) := [(1, facC2)]

/-- The external map of the C2 witness. -/
def extsC2 : List (ℤ × ExternalSource) := [(2, extC2n), (3, extC2i)]

/-- The classification output of the C2 witness run. -/
def outC2 : List (ℤ × Facility) × List (ℤ × ExternalSource) :=
  ([(1, { facC2 with change_action := some .remove })],
   [(2, { extC2n with change_action := some .add }), (3, extC2i)])

/-- Witness for C2: the theorem applied to a concrete run in which the
register record is removed, the non-ignored unmatched external record
is added, and the ignored external record is left untouched. -/
theorem C2_witness :
    (outC2.1.map Prod.fst = facsC2.map Prod.fst ∧
      outC2.2.map Prod.fst = extsC2.map Prod.fst) ∧
    (∀ fid f2, (fid, f2) ∈ outC2.1 → ∃ f, (fid, f) ∈ facsC2 ∧
      (f2.change_action = some .remove ↔
        (aget extsC2 fid = none ∨
          ∃ e, aget extsC2 fid = some e ∧ e.change_action = some .ignore)) ∧
      (∀ e, aget extsC2 fid = some e → e.change_action ≠ some .ignore →
        f2 = (f.update_from_other e ["source_name"]).1 ∧
        f2.change_action ≠ some .remove ∧ f2.change_action ≠ some .add)) ∧
    (∀ eid e2, (eid, e2) ∈ outC2.2 → ∃ e, (eid, e) ∈ extsC2 ∧
      (e.change_action = some .ignore → e2 = e ∧ e2.change_action ≠ some .add) ∧
      (e.change_action = none →
        (e2.change_action = some .add ↔ aget facsC2 eid = none) ∧
        (aget facsC2 eid ≠ none → e2 = e))) :=
  C2_classification_partition.1 facsC2 extsC2 ["source_name"] outC2
    (by decide) (by decide) (by decide) (by decide) (by decide) (by rfl)

/-! ## The C7 claim: no-change classification is a null no-op and re-running
  classification is idempotent -/

theorem update_from_comparison_noop (f : FacilitiesSchool) (c : Comparison)
    (hw : c.is_geom_within_threshold = true) (hc : c.changed_attrs = []) :
    f.update_from_comparison c = f := by
  simp [FacilitiesSchool.update_from_comparison, hw, hc]

/-- The per-record result of the register pass of `compare_schools`
when every matched comparison finds no geometry or attribute
difference: matched records are untouched, unmatched (or
ignored-match) records are marked for removal. -/
def schoolNoopStep (moes : List (ℤ × MOESchool)) (k : ℤ) (v : FacilitiesSchool) :
    FacilitiesSchool :=
  match aget moes k with
  | some m =>
    if m.change_action ≠ some .ignore then v
    else { v with change_action := some .remove }
  | none => { v with change_action := some .remove }

theorem classifySchools_noop (moes : List (ℤ × MOESchool)) (attrs : List String)
    (facs : List (ℤ × FacilitiesSchool))
    (h4 : ∀ p ∈ facs, ∀ m : MOESchool, aget moes p.1 = some m →
      m.change_action ≠ some .ignore →
      ∃ c, (p.2 : FacilitiesSchool).compare m true attrs = .ok c ∧
        c.is_geom_within_threshold = true ∧ c.changed_attrs = []) :
    classifySchools moes attrs facs =
      .ok (facs.map fun p => (p.1, schoolNoopStep moes p.1 p.2)) := by
  induction facs with
  | nil => rfl
  | cons p rest ih =>
    obtain ⟨fid, f⟩ := p
    have ih2 := ih fun q hq => h4 q (List.mem_cons_of_mem _ hq)
    simp only [classifySchools, List.map_cons]
    cases hg : aget moes fid with
    | none =>
      simp only [hg, ih2, Except.map, schoolNoopStep]
    | some m =>
      by_cases hi : m.change_action ≠ some ChangeAction.ignore
      · obtain ⟨c, hcmp, hw, hch⟩ :=
          h4 (fid, f) (List.mem_cons_self _ _) m hg hi
        simp only [hg, if_pos hi, hcmp, update_from_comparison_noop f c hw hch, ih2,
          Except.map, schoolNoopStep]
      · simp only [hg, if_neg hi, ih2, Except.map, schoolNoopStep]

/-- C7: when every matched, non-ignored pair compares with a non-null
within-threshold distance and no changed attributes, classification
leaves each matched register record — in particular its null
`change_action` — untouched, and re-running `compare_schools` on its
own output reproduces that output exactly (same `change_action`,
`change_description` and `sql` for every record). -/
theorem C7_noop_idempotent :
    ∀ (facs : List (ℤ × FacilitiesSchool)) (moes : List (ℤ × MOESchool))
      (attrs : List String),
      (facs.map Prod.fst).Nodup → (moes.map Prod.fst).Nodup →
      (∀ p ∈ facs, (p.2 : FacilitiesSchool).change_action = none) →
      (∀ p ∈ moes, (p.2 : MOESchool).change_action = none ∨
        (p.2 : MOESchool).change_action = some .ignore) →
      (∀ fid f m, aget facs fid = some f → aget moes fid = some m →
        m.change_action ≠ some .ignore →
        ∃ c, FacilitiesSchool.compare f m true attrs = .ok c ∧
          c.is_geom_within_threshold = true ∧ c.changed_attrs = []) →
      ∃ out : List (ℤ × FacilitiesSchool) × List (ℤ × MOESchool),
        compare_schools facs moes attrs = .ok out ∧
        (∀ fid f m, aget facs fid = some f → aget moes fid = some m →
          m.change_action ≠ some .ignore →
          aget out.1 fid = some f ∧ f.change_action = none) ∧
        compare_schools out.1 out.2 attrs = .ok out := by
  intro facs moes attrs hnF hnM hfreshF hfreshM h4
  have h4m : ∀ p ∈ facs, ∀ m : MOESchool, aget moes p.1 = some m →
      m.change_action ≠ some .ignore →
      ∃ c, (p.2 : FacilitiesSchool).compare m true attrs = .ok c ∧
        c.is_geom_within_threshold = true ∧ c.changed_attrs = [] := by
    intro p hp m hg hi
    obtain ⟨k, v⟩ := p
    exact h4 k v m (aget_of_mem hnF hp) hg hi
  set out1 := facs.map fun p => (p.1, schoolNoopStep moes p.1 p.2) with hout1
  set out2 := moes.map fun p =>
    (p.1, if p.2.change_action ≠ some ChangeAction.ignore ∧ aget facs p.1 = none then
      { p.2 with change_action := some ChangeAction.add } else p.2) with hout2
  have hrun1 : compare_schools facs moes attrs = .ok (out1, out2) := by
    rw [compare_schools, classifySchools_noop moes attrs facs h4m]
  have hkeys1 : out1.map Prod.fst = facs.map Prod.fst := by
    rw [hout1, List.map_map]
    exact List.map_congr_left fun p _ => rfl
  have hkeys2 : out2.map Prod.fst = moes.map Prod.fst := by
    rw [hout2, List.map_map]
    exact List.map_congr_left fun p _ => rfl
  have hget1 : ∀ fid, aget out1 fid = (aget facs fid).map (schoolNoopStep moes fid) :=
    fun fid => aget_map_kval (schoolNoopStep moes) facs fid
  have hget2 : ∀ fid, aget out2 fid = (aget moes fid).map (fun m =>
      if m.change_action ≠ some ChangeAction.ignore ∧ aget facs fid = none then
        { m with change_action := some ChangeAction.add } else m) :=
    fun fid => aget_map_kval
      (fun k m => if m.change_action ≠ some ChangeAction.ignore ∧ aget facs k = none then
        { m with change_action := some ChangeAction.add } else m) moes fid
  refine ⟨(out1, out2), hrun1, ?_, ?_⟩
  · intro fid f m hgf hgm hi
    have hstep : schoolNoopStep moes fid f = f := by
      rw [schoolNoopStep, hgm]
      simp [hi]
    refine ⟨?_, hfreshF (fid, f) (aget_mem hgf)⟩
    rw [hget1, hgf]
    show some (schoolNoopStep moes fid f) = some f
    rw [hstep]
  · -- the second run
    have h4m2 : ∀ p ∈ out1, ∀ m : MOESchool, aget out2 p.1 = some m →
        m.change_action ≠ some .ignore →
        ∃ c, (p.2 : FacilitiesSchool).compare m true attrs = .ok c ∧
          c.is_geom_within_threshold = true ∧ c.changed_attrs = [] := by
      intro p hp m2 hg2 hi2
      obtain ⟨q, hq, hqe⟩ := List.mem_map.mp hp
      rw [hget2] at hg2
      cases hgm : aget moes p.1 with
      | none =>
        rw [hgm] at hg2
        cases hg2
      | some m0 =>
        rw [hgm] at hg2
        simp only [Option.map_some'] at hg2
        injection hg2 with hg3
        have hfid : q.1 = p.1 := by rw [← hqe]
        have hq2 : aget facs p.1 = some q.2 := by
          rw [← hfid]
          exact aget_of_mem hnF (by rw [Prod.mk.eta]; exact hq)
        have hnot : ¬(m0.change_action ≠ some ChangeAction.ignore ∧
            aget facs p.1 = none) := by
          rintro ⟨_, hcon⟩
          rw [hq2] at hcon
          cases hcon
        rw [if_neg hnot] at hg3
        subst hg3
        have hp2 : p.2 = q.2 := by
          have hsnd := congrArg Prod.snd hqe
          simp only at hsnd
          rw [← hsnd]
          rw [schoolNoopStep, hfid, hgm]
          exact if_pos hi2
        rw [hp2]
        exact h4 p.1 q.2 m0 hq2 hgm hi2
    rw [compare_schools, classifySchools_noop out2 attrs out1 h4m2]
    have hmap1 : out1.map (fun p => (p.1, schoolNoopStep out2 p.1 p.2)) = out1 := by
      conv_rhs => rw [hout1]
      rw [hout1, List.map_map]
      refine List.map_congr_left fun q hq => ?_
      simp only [Function.comp]
      congr 1
      rw [schoolNoopStep, hget2]
      cases hgm : aget moes q.1 with
      | none =>
        simp only [Option.map_none']
        rw [schoolNoopStep, hgm]
      | some m0 =>
        simp only [Option.map_some']
        have hq2 : aget facs q.1 = some q.2 :=
          aget_of_mem hnF (by rw [Prod.mk.eta]; exact hq)
        have hnot : ¬(m0.change_action ≠ some ChangeAction.ignore ∧
            aget facs q.1 = none) := by
          rintro ⟨_, hcon⟩
          rw [hq2] at hcon
          cases hcon
        rw [if_neg hnot]
        by_cases hi : m0.change_action ≠ some ChangeAction.ignore
        · exact if_pos hi
        · refine Eq.trans (if_neg hi) ?_
          have hw : schoolNoopStep moes q.1 q.2 =
              { q.2 with change_action := some ChangeAction.remove } := by
            rw [schoolNoopStep, hgm]
            exact if_neg hi
          rw [hw]
    have hmap2 : out2.map (fun p =>
        (p.1, if p.2.change_action ≠ some ChangeAction.ignore ∧ aget out1 p.1 = none then
          { p.2 with change_action := some ChangeAction.add } else p.2)) = out2 := by
      conv_rhs => rw [hout2]
      rw [hout2, List.map_map]
      refine List.map_congr_left fun q hq => ?_
      simp only [Function.comp]
      have hkey : aget out1 q.1 = none ↔ aget facs q.1 = none := by
        rw [aget_eq_none_iff, aget_eq_none_iff, hkeys1]
      by_cases hC0 : q.2.change_action ≠ some ChangeAction.ignore ∧ aget facs q.1 = none
      · rw [if_pos hC0]
        have houter : ({ q.2 with change_action := some ChangeAction.add
            } : MOESchool).change_action ≠ some ChangeAction.ignore ∧
            aget out1 q.1 = none := ⟨by simp, hkey.mpr hC0.2⟩
        rw [if_pos houter]
      · rw [if_neg hC0]
        have houter : ¬((q.2 : MOESchool).change_action ≠ some ChangeAction.ignore ∧
            aget out1 q.1 = none) := by
          rintro ⟨h1, h2⟩
          exact hC0 ⟨h1, hkey.mp h2⟩
        rw [if_neg houter]
    rw [hmap1, hmap2]

/-- Concrete register school for the C7 witness: matched with `moeC7`
under the same id, same geometry and same source name. -/
def facC7 : FacilitiesSchool :=
  ⟨101, "Grey Lynn School", "Primary", some 5, some 300, none, none, none, none,
   some 1, some "Grey Lynn School", some "School", some "Primary", some 0, none⟩

/-- Concrete MOE school for the C7 witness. -/
def moeC7 : MOESchool :=
  ⟨101, "Grey Lynn School", "Primary", some 5, some 300, none, none, none, none,
   none, none, none, none, none, none⟩

/-- Singleton register map for the C7 witness. -/
def facsC7 : List (ℤ × FacilitiesSchool) := [(101, facC7)]

/-- Singleton MOE map for the C7 witness. -/
def moesC7 : List (ℤ × MOESchool) := [(101, moeC7)]

/-- Compared attribute set for the C7 witness. -/
def attrsC7 : List String := ["source_name"]

theorem C7_witness :
    ∃ out : List (ℤ × FacilitiesSchool) × List (ℤ × MOESchool),
      compare_schools facsC7 moesC7 attrsC7 = .ok out ∧
      (∀ fid f m, aget facsC7 fid = some f → aget moesC7 fid = some m →
        m.change_action ≠ some .ignore →
        aget out.1 fid = some f ∧ f.change_action = none) ∧
      compare_schools out.1 out.2 attrsC7 = .ok out :=
  C7_noop_idempotent facsC7 moesC7 attrsC7 (by decide) (by decide)
    (by
      intro p hp
      simp only [facsC7, List.mem_singleton] at hp
      subst hp
      rfl)
    (by
      intro p hp
      simp only [moesC7, List.mem_singleton] at hp
      subst hp
      exact Or.inl rfl)
    (by
      intro fid f m hgf hgm hi
      rw [show aget facsC7 fid = if (101:ℤ) = fid then some facC7 else none from rfl] at hgf
      rw [show aget moesC7 fid = if (101:ℤ) = fid then some moeC7 else none from rfl] at hgm
      by_cases h1 : (101:ℤ) = fid
      · rw [if_pos h1] at hgf hgm
        injection hgf with hgf
        injection hgm with hgm
        subst hgf
        subst hgm
        exact ⟨⟨some (planarDist 5 5),
          [("source_name", (PyVal.vStr "Grey Lynn School", PyVal.vStr "Grey Lynn School"))]⟩,
          rfl, by decide, by decide⟩
      · rw [if_neg h1] at hgf
        cases hgf)

/-! ## The C4 claim: the absorption owner set is frozen at the seed -/

/-- Every coordinate of the geometry returned by `mergeLoop` comes from
the initial seed geometry or from a parcel of the same-owner pool:
absorption never draws from outside the pool, whatever the round count
or the grown seed. -/
theorem mergeLoop_mem (pool : List Parcel) (threshold : ℤ) :
    ∀ (fuel rounds : ℕ) (merged geom : List ℤ),
      ∀ x ∈ (mergeLoop pool threshold fuel rounds merged geom).1,
        x ∈ geom ∨ ∃ p, p ∈ pool ∧ x ∈ p.geom := by
  intro fuel
  induction fuel with
  | zero =>
    intro rounds merged geom x hx
    exact Or.inl hx
  | succ n ih =>
    intro rounds merged geom x hx
    simp only [mergeLoop] at hx
    split at hx
    · exact Or.inl hx
    · rcases ih _ _ _ x hx with hgx | ⟨p, hp, hxp⟩
      · rw [unionGeoms, List.mem_dedup, List.mem_flatten] at hgx
        obtain ⟨l, hl, hxl⟩ := hgx
        rcases List.mem_cons.mp hl with rfl | hl2
        · exact Or.inl hxl
        · obtain ⟨p, hp, rfl⟩ := List.mem_map.mp hl2
          exact Or.inr ⟨p, List.mem_of_mem_filter hp, hxl⟩
      · exact Or.inr ⟨p, hp, hxp⟩

/-- C4: the owner set driving absorption in `find_matching_titles` is
computed once from the parcels directly intersecting the input point
and is never expanded: every coordinate of the returned merged geometry
comes from a parcel that either directly intersects the point or whose
owner name is in that original seed owner set, so a parcel whose owner
is outside the seed set contributes nothing to the result through any
number of rounds, however close it comes to the grown seed. -/
theorem C4_owner_set_frozen (titles : List Parcel) (u : Bool) (t : ℤ) (pt : ℤ)
    (r : MatchResult) (g : List ℤ)
    (hr : find_matching_titles (some titles) u t (some pt) = .ok r)
    (hg : r.geometry = some g) :
    ∀ x ∈ g, ∃ p, p ∈ titles ∧ x ∈ p.geom ∧
      (p ∈ matchingTitlesOf titles pt ∨
       ∃ o, ownerOf u p = some o ∧ o ∈ allOwnersOf u (matchingTitlesOf titles pt)) := by
  intro x hx
  rw [find_matching_titles] at hr
  by_cases h1 : sindexQuery titles pt = []
  · rw [if_pos h1] at hr
    injection hr with hr
    rw [← hr] at hg
    cases hg
  · rw [if_neg h1] at hr
    by_cases h2 : (sindexQuery titles pt).filter (fun p => p.geom.contains pt) = []
    · rw [if_pos h2] at hr
      injection hr with hr
      rw [← hr] at hg
      cases hg
    · rw [if_neg h2] at hr
      injection hr with hr
      rw [← hr] at hg
      simp only at hg
      injection hg with hg
      rw [← hg] at hx
      have hmem := mergeLoop_mem _ _ _ _ _ _ x hx
      have hmt : matchingTitlesOf titles pt =
          (sindexQuery titles pt).filter fun p => p.geom.contains pt := rfl
      rcases hmem with hseed | ⟨p, hp, hxp⟩
      · rw [unionGeoms, List.mem_dedup, List.mem_flatten] at hseed
        obtain ⟨l, hl, hxl⟩ := hseed
        obtain ⟨p, hp, rfl⟩ := List.mem_map.mp hl
        refine ⟨p, ?_, hxl, Or.inl ?_⟩
        · exact List.mem_of_mem_filter (List.mem_of_mem_filter hp)
        · rw [hmt]
          exact hp
      · rw [sameOwnerPool] at hp
        have hp0 : p ∈ titles := List.mem_of_mem_filter hp
        have hcond := List.of_mem_filter hp
        rw [Bool.and_eq_true] at hcond
        obtain ⟨howner, _⟩ := hcond
        refine ⟨p, hp0, hxp, Or.inr ?_⟩
        cases ho : ownerOf u p with
        | none =>
          rw [ho] at howner
          cases howner
        | some o =>
          rw [ho] at howner
          rw [hmt]
          exact ⟨o, rfl, by exact_mod_cast of_decide_eq_true howner⟩

/-- Parcel fixtures for the C4 witness: three `alice` parcels in a
chain from the query point plus a `bob` parcel adjacent to the grown
seed. -/
def titlesC4 : List Parcel :=
  [⟨1, some "alice", some "alice", [0]⟩,
   ⟨2, some "alice", some "alice", [1]⟩,
   ⟨3, some "alice", some "alice", [2]⟩,
   ⟨4, some "bob", some "bob", [3]⟩]

/-- The result row of `find_matching_titles` on the C4 fixtures. -/
def resC4 : MatchResult := ⟨some [0, 1, 2], some "alice", some 1⟩

theorem C4_witness :
    find_matching_titles (some titlesC4) false 1 (some 0) = .ok resC4 ∧
    ∀ x ∈ [(0:ℤ), 1, 2], ∃ p, p ∈ titlesC4 ∧ x ∈ p.geom ∧
      (p ∈ matchingTitlesOf titlesC4 0 ∨
       ∃ o, ownerOf false p = some o ∧ o ∈ allOwnersOf false (matchingTitlesOf titlesC4 0)) :=
  ⟨by rfl, C4_owner_set_frozen titlesC4 false 1 0 resC4 [0, 1, 2] (by rfl) (by rfl)⟩

/-! ## The C5 claim: the absorption loop stops after at most
  `TITLE_MERGE_MAX_ROUNDS` rounds -/

/-- The round counter of `mergeLoop` never exceeds
`TITLE_MERGE_MAX_ROUNDS` once it starts at or below it: advancing a
round requires the counter to still be strictly below the cap. -/
theorem mergeLoop_rounds_le (pool : List Parcel) (t : ℤ) :
    ∀ (fuel rounds : ℕ) (merged geom : List ℤ),
      rounds ≤ TITLE_MERGE_MAX_ROUNDS →
      (mergeLoop pool t fuel rounds merged geom).2 ≤ TITLE_MERGE_MAX_ROUNDS := by
  intro fuel
  induction fuel with
  | zero =>
    intro rounds merged geom h
    exact h
  | succ n ih =>
    intro rounds merged geom h
    simp only [mergeLoop]
    split
    · exact h
    · next hc =>
      have hlt : rounds < TITLE_MERGE_MAX_ROUNDS := by
        by_contra hge
        exact hc (Or.inr (Nat.le_of_not_lt hge))
      exact ih _ _ _ (Nat.succ_le_of_lt hlt)

/-- The structural fuel of `mergeLoop` is an artefact: any two fuels
large enough that the round cap fires first give the same result, so
the rendering is faithful to the unconditional Python `while` loop. -/
theorem mergeLoop_fuel_eq (pool : List Parcel) (t : ℤ) :
    ∀ (fuel fuel' rounds : ℕ) (merged geom : List ℤ),
      TITLE_MERGE_MAX_ROUNDS < rounds + fuel →
      TITLE_MERGE_MAX_ROUNDS < rounds + fuel' →
      mergeLoop pool t fuel rounds merged geom =
        mergeLoop pool t fuel' rounds merged geom := by
  intro fuel
  induction fuel with
  | zero =>
    intro fuel' rounds merged geom h h'
    cases fuel' with
    | zero => rfl
    | succ m =>
      simp only [mergeLoop]
      rw [if_pos (Or.inr (by omega : TITLE_MERGE_MAX_ROUNDS ≤ rounds))]
  | succ n ih =>
    intro fuel' rounds merged geom h h'
    cases fuel' with
    | zero =>
      simp only [mergeLoop]
      rw [if_pos (Or.inr (by omega : TITLE_MERGE_MAX_ROUNDS ≤ rounds))]
    | succ m =>
      simp only [mergeLoop]
      split
      · rfl
      · exact ih m (rounds + 1) _ _ (by omega) (by omega)

/-- The 25-parcel same-owner chain for C5: parcel `i` at coordinate
`i`, each within distance 1 of the next. -/
def titlesC5 : List Parcel :=
  (List.range 25).map fun i => ⟨(i : ℤ), some "o", some "o", [(i : ℤ)]⟩

/-- The geometry `find_matching_titles` actually merges on `titlesC5`:
the chain is cut off after the round cap, at coordinate 19. -/
def geomC5 : List ℤ := (List.range 20).map fun i => (i : ℤ)

/-- C5: the absorption loop always stops after at most
`TITLE_MERGE_MAX_ROUNDS` (20) rounds — the round counter never exceeds
the cap, the structural fuel never decides the result — and on a
25-parcel same-owner chain each within the distance threshold of the
next, the merge stops with the 21st parcel still unmerged even though
it is within the threshold of the grown seed geometry and its owner is
in the seed owner set. -/
theorem C5_round_bound :
    (∀ (pool : List Parcel) (t : ℤ) (fuel rounds : ℕ) (merged geom : List ℤ),
      rounds ≤ TITLE_MERGE_MAX_ROUNDS →
      (mergeLoop pool t fuel rounds merged geom).2 ≤ TITLE_MERGE_MAX_ROUNDS) ∧
    (∀ (pool : List Parcel) (t : ℤ) (fuel fuel' rounds : ℕ) (merged geom : List ℤ),
      TITLE_MERGE_MAX_ROUNDS < rounds + fuel →
      TITLE_MERGE_MAX_ROUNDS < rounds + fuel' →
      mergeLoop pool t fuel rounds merged geom =
        mergeLoop pool t fuel' rounds merged geom) ∧
    (find_matching_titles (some titlesC5) false 1 (some 0) =
        .ok ⟨some geomC5, some "o", some 1⟩ ∧
      geomC5.contains 20 = false ∧
      withinThreshold 1 [20] geomC5 = true ∧
      (⟨20, some "o", some "o", [20]⟩ : Parcel) ∈ titlesC5 ∧
      ownerOf false (⟨20, some "o", some "o", [20]⟩ : Parcel) = some "o" ∧
      "o" ∈ allOwnersOf false (matchingTitlesOf titlesC5 0)) :=
  ⟨fun pool t => mergeLoop_rounds_le pool t,
   fun pool t => mergeLoop_fuel_eq pool t,
   by rfl, by decide, by decide, by decide, by rfl, by decide⟩

theorem C5_witness :
    ((1:ℕ) ≤ TITLE_MERGE_MAX_ROUNDS ∧
      (mergeLoop [] 1 3 1 [] [0]).2 ≤ TITLE_MERGE_MAX_ROUNDS) ∧
    (TITLE_MERGE_MAX_ROUNDS < 1 + 20 ∧ TITLE_MERGE_MAX_ROUNDS < 1 + 21 ∧
      mergeLoop [] 1 20 1 [] [0] = mergeLoop [] 1 21 1 [] [0]) :=
  ⟨⟨by decide, C5_round_bound.1 [] 1 3 1 [] [0] (by decide)⟩,
   by decide, by decide,
   C5_round_bound.2.1 [] 1 20 21 1 [] [0] (by decide) (by decide)⟩

/-! ## The C9 claim: error exactly when the titles table is unloaded,
  and the no-match tuple -/

/-- C9 (amended): `find_matching_titles` raises exactly when the
`TITLES_GDF` global has not been set; with a loaded parcel set it
never raises, and a null point geometry, an empty set of spatial-index
candidates, or candidates none of which truly intersect all return the
defined no-match tuple — which is `(None, pd.NA, pd.NA)`: null
geometry, *missing* owner names and *missing* owner count, not an
empty string and zero. -/
theorem C9_error_iff_unloaded :
    (∀ (u : Bool) (t : ℤ) (geo : Option ℤ),
      find_matching_titles none u t geo = .error "Global TITLES_GDF has not been set") ∧
    (∀ (titles : List Parcel) (u : Bool) (t : ℤ) (geo : Option ℤ),
      ∃ r, find_matching_titles (some titles) u t geo = .ok r) ∧
    (∀ (titles : List Parcel) (u : Bool) (t : ℤ),
      find_matching_titles (some titles) u t none = .ok noneReturnValue) ∧
    (∀ (titles : List Parcel) (u : Bool) (t : ℤ) (pt : ℤ),
      sindexQuery titles pt = [] →
      find_matching_titles (some titles) u t (some pt) = .ok noneReturnValue) ∧
    (∀ (titles : List Parcel) (u : Bool) (t : ℤ) (pt : ℤ),
      matchingTitlesOf titles pt = [] →
      find_matching_titles (some titles) u t (some pt) = .ok noneReturnValue) ∧
    noneReturnValue = ⟨none, none, none⟩ := by
  refine ⟨fun u t geo => rfl, ?_, fun titles u t => rfl, ?_, ?_, rfl⟩
  · intro titles u t geo
    cases geo with
    | none => exact ⟨noneReturnValue, rfl⟩
    | some pt =>
      rw [find_matching_titles]
      by_cases h1 : sindexQuery titles pt = []
      · rw [if_pos h1]
        exact ⟨noneReturnValue, rfl⟩
      · rw [if_neg h1]
        by_cases h2 : (sindexQuery titles pt).filter (fun p => p.geom.contains pt) = []
        · rw [if_pos h2]
          exact ⟨noneReturnValue, rfl⟩
        · rw [if_neg h2]
          exact ⟨_, rfl⟩
  · intro titles u t pt h
    rw [find_matching_titles, if_pos h]
  · intro titles u t pt h
    rw [find_matching_titles]
    by_cases h1 : sindexQuery titles pt = []
    · rw [if_pos h1]
    · rw [if_neg h1,
        if_pos (show (sindexQuery titles pt).filter (fun p => p.geom.contains pt) = [] from h)]

/-- The no-match tuple returned by the code carries `pd.NA` in the
owner-names and owner-count columns, not an empty string and a zero
count as the claim words it. -/
theorem C9_counterexample :
    find_matching_titles (some []) false 1 (some 0) = .ok noneReturnValue ∧
    noneReturnValue.owner_count ≠ some 0 ∧
    noneReturnValue.owner_names ≠ some "" :=
  ⟨by rfl, by decide, by decide⟩

theorem C9_witness :
    (sindexQuery [] (0:ℤ) = [] ∧
      find_matching_titles (some []) false 1 (some 0) = .ok noneReturnValue) ∧
    (matchingTitlesOf [⟨1, some "o", some "o", [0, 2]⟩] 1 = [] ∧
      find_matching_titles (some [⟨1, some "o", some "o", [0, 2]⟩]) false 1 (some 1) =
        .ok noneReturnValue) :=
  ⟨⟨by rfl, C9_error_iff_unloaded.2.2.2.1 [] false 1 0 (by rfl)⟩,
   ⟨by rfl, C9_error_iff_unloaded.2.2.2.2.1 [⟨1, some "o", some "o", [0, 2]⟩] false 1 1 (by rfl)⟩⟩

/-! ## The C10 claim: owner names and the owner count come from the
  directly-intersecting parcels only -/

/-- C10: whenever at least one parcel directly intersects the point,
the owner-names string and owner count of the `find_matching_titles`
result are computed from the directly-intersecting parcels alone —
missing owners dropped, the rest deduplicated, sorted and joined with
`", "`, the count being the size of that deduplicated set — whatever
geometry the later absorption rounds contribute. -/
theorem C10_owner_names_direct (titles : List Parcel) (u : Bool) (t : ℤ) (pt : ℤ)
    (h : matchingTitlesOf titles pt ≠ []) :
    ∃ g, find_matching_titles (some titles) u t (some pt) =
      .ok ⟨some g,
        some (String.intercalate ", "
          (sortStrings (allOwnersOf u (matchingTitlesOf titles pt)))),
        some (allOwnersOf u (matchingTitlesOf titles pt)).length⟩ := by
  have h1 : sindexQuery titles pt ≠ [] := by
    intro h0
    apply h
    rw [matchingTitlesOf, h0]
    rfl
  rw [find_matching_titles, if_neg h1,
    if_neg (show ((sindexQuery titles pt).filter fun p => p.geom.contains pt) ≠ [] from h)]
  exact ⟨_, rfl⟩

/-- Parcel fixtures for the C10 witness: two distinct owners and a
missing owner directly at the point, plus a same-owner parcel at
distance 5 that the loop absorbs. -/
def titlesC10 : List Parcel :=
  [⟨1, some "zoe", some "zoe", [0]⟩,
   ⟨2, some "amy", some "amy", [0]⟩,
   ⟨3, some "zoe", some "zoe", [0]⟩,
   ⟨4, none, none, [0]⟩,
   ⟨5, some "zoe", some "zoe", [5]⟩]

theorem C10_witness :
    matchingTitlesOf titlesC10 0 ≠ [] ∧
    (∃ g, find_matching_titles (some titlesC10) false 5 (some 0) =
      .ok ⟨some g,
        some (String.intercalate ", "
          (sortStrings (allOwnersOf false (matchingTitlesOf titlesC10 0)))),
        some (allOwnersOf false (matchingTitlesOf titlesC10 0)).length⟩) ∧
    find_matching_titles (some titlesC10) false 5 (some 0) =
      .ok ⟨some [0, 5], some "amy, zoe", some 2⟩ :=
  ⟨by decide, C10_owner_names_direct titlesC10 false 5 0 (by decide), by rfl⟩

end NZF
